import Mathlib

/-!
# Verification of the TRDP PD communication engine (trdp_pdcom.c)

A shallow embedding of the Process Data engine of the TCNOpen TRDP stack
(`src/trdp/src/common/trdp_pdcom.c`) and proofs about it.

Modelling conventions:
* Machine integers (`UINT32`) are `Nat`; wrap-around is written explicitly
  with `% 4294967296` at the places where the C arithmetic can overflow
  (sequence counters, `numMissed`).
* `TRDP_TIME_T` (a `timeval`) is modelled as a single `Nat` of microseconds.
  The `vos_*Time` helpers are external collaborators (out of scope per the
  spec); `vos_addTime` is `+`, `vos_cmpTime` is `≤`/`<`, `vos_mulTime` is
  `*`, `vos_divTime` is `/`, `timerisset t` is `t ≠ 0`.
* Byte-order helpers (`vos_htonl` …) are bijections applied consistently on
  both sides of every comparison in the C code, so fields are modelled as
  host values and the helpers as the identity.
* The CRC (`vos_crc32`) is an external primitive, modelled as an arbitrary
  function parameter `crc32` applied to the header with its FCS field
  zeroed (the C code hashes `sizeof(PD_HEADER_T) - 4` bytes, i.e. all
  fields up to but excluding `frameCheckSum`).  `MAKE_LE` is the identity
  (both the stored and the computed FCS pass through it).
* The UDP transport is a parameter `udpOk : Int → Nat → Bool`
  (socket index, destination IP ↦ did the send succeed completely).
* Memory allocation success is a `Bool` parameter; callbacks are modelled
  as emitted events (an element records `hasCb` for `pfCbFunction ≠ NULL`).
-/

namespace Trdp

/-- TRDP error codes (the subset reachable in the PD engine core). -/
inductive TRDP_ERR_T where
  | NO_ERR
  | PARAM_ERR
  | MEM_ERR
  | WIRE_ERR
  | CRC_ERR
  | TOPO_ERR
  | NOSUB_ERR
  | NODATA_ERR
  | TIMEOUT_ERR
  | IO_ERR
  | BLOCK_ERR
deriving DecidableEq, Repr

open TRDP_ERR_T

/-- Modelled from the spec: message-type wire codes 'Pd'/'Pp'/'Pr'/'Pe'
(`trdp_types.h` is not part of the sources). -/
def TRDP_MSG_PD : Nat := 0x5064

/-- Modelled from the spec: 'Pp' (pull reply / requested). -/
def TRDP_MSG_PP : Nat := 0x5070

/-- Modelled from the spec: 'Pr' (pull request). -/
def TRDP_MSG_PR : Nat := 0x5072

/-- Modelled from the spec: 'Pe' (error). -/
def TRDP_MSG_PE : Nat := 0x5065

/-- Modelled from the spec: the fixed PD header is 40 bytes
(`trdp_def.h` is not part of the sources). -/
def TRDP_MIN_PD_HEADER_SIZE : Nat := 40

/-- Modelled from the spec: `datasetLength ≤ 1432` octets. -/
def TRDP_MAX_PD_DATA_SIZE : Nat := 1432

/-- Modelled from the spec: header (40) plus maximal payload (1432). -/
def TRDP_MAX_PD_PACKET_SIZE : Nat := 1472

/-- Modelled from the spec: engine protocol-version constant. -/
def TRDP_PROTO_VER : Nat := 0x0100

/-- Modelled from the spec: only the high bits of `protocolVersion` are
compared ("masked compare"). -/
def TRDP_PROTOCOL_VERSION_CHECK_MASK : Nat := 0xFF00

/-- Modelled from the spec: distinguished ComID of the statistics PULL
request (scenario 1 of the spec: comId=31). -/
def TRDP_STATISTICS_PULL_COMID : Nat := 31

/-- Modelled from the spec: distinguished ComID of the statistics reply
(scenario 1 of the spec: comId=35). -/
def TRDP_GLOBAL_STATISTICS_COMID : Nat := 35

def UINT32_MAX : Nat := 4294967295

/-- The modulus of 32-bit unsigned arithmetic. -/
def U32 : Nat := 4294967296

/-- The PD wire header (fields in host representation, see the module
comment for the byte-order convention). -/
structure PD_HEADER_T where
  sequenceCounter : Nat
  protocolVersion : Nat
  msgType         : Nat
  comId           : Nat
  etbTopoCnt      : Nat
  opTrnTopoCnt    : Nat
  datasetLength   : Nat
  reserved        : Nat
  replyComId      : Nat
  replyIpAddress  : Nat
  frameCheckSum   : Nat
deriving DecidableEq, Repr

/-- The header with the FCS field zeroed: the input range of the header
CRC (`sizeof(PD_HEADER_T) - SIZE_OF_FCS` bytes). -/
def hdrSansFcs (h : PD_HEADER_T) : PD_HEADER_T :=
  { h with frameCheckSum := 0 }

/-- `PD_PACKET_T`: header plus payload bytes. -/
structure PD_PACKET_T where
  frameHead : PD_HEADER_T
  data      : List Nat
deriving DecidableEq, Repr

/-- `trdp_pdCheck`: sanity check of a received PD frame
(size window, header FCS, masked protocol version, dataset length,
message type), in exactly the order of the C code. -/
def trdp_pdCheck (crc32 : PD_HEADER_T → Nat) (pPacket : PD_HEADER_T)
    (packetSize : Nat) : TRDP_ERR_T :=
  if packetSize < TRDP_MIN_PD_HEADER_SIZE ∨ packetSize > TRDP_MAX_PD_PACKET_SIZE then
    WIRE_ERR
  else if pPacket.frameCheckSum ≠ crc32 (hdrSansFcs pPacket) then
    CRC_ERR
  else if (pPacket.protocolVersion &&& TRDP_PROTOCOL_VERSION_CHECK_MASK)
            ≠ (TRDP_PROTO_VER &&& TRDP_PROTOCOL_VERSION_CHECK_MASK)
          ∨ pPacket.datasetLength > TRDP_MAX_PD_DATA_SIZE then
    WIRE_ERR
  else if pPacket.msgType ≠ TRDP_MSG_PD ∧ pPacket.msgType ≠ TRDP_MSG_PP
          ∧ pPacket.msgType ≠ TRDP_MSG_PR ∧ pPacket.msgType ≠ TRDP_MSG_PE then
    WIRE_ERR
  else
    NO_ERR

/-- The classification of `Check` as the specification words it
(C5): size window, then FCS, then masked version / dataset length,
then message type. -/
def pdCheckSpec (crc32 : PD_HEADER_T → Nat) (h : PD_HEADER_T)
    (observedSize : Nat) : TRDP_ERR_T :=
  if TRDP_MIN_PD_HEADER_SIZE ≤ observedSize ∧ observedSize ≤ TRDP_MAX_PD_PACKET_SIZE then
    if h.frameCheckSum = crc32 (hdrSansFcs h) then
      if (h.protocolVersion &&& TRDP_PROTOCOL_VERSION_CHECK_MASK)
           = (TRDP_PROTO_VER &&& TRDP_PROTOCOL_VERSION_CHECK_MASK)
         ∧ h.datasetLength ≤ TRDP_MAX_PD_DATA_SIZE then
        if h.msgType = TRDP_MSG_PD ∨ h.msgType = TRDP_MSG_PP
           ∨ h.msgType = TRDP_MSG_PR ∨ h.msgType = TRDP_MSG_PE then
          NO_ERR
        else WIRE_ERR
      else WIRE_ERR
    else CRC_ERR
  else WIRE_ERR

/-- A header that is sane for `crc32 = fun _ => 0` except for the fields a
test wants to vary: used by the boundary theorems. -/
def saneHdr (len : Nat) : PD_HEADER_T :=
  { sequenceCounter := 1, protocolVersion := TRDP_PROTO_VER,
    msgType := TRDP_MSG_PD, comId := 1000, etbTopoCnt := 0, opTrnTopoCnt := 0,
    datasetLength := len, reserved := 0, replyComId := 0, replyIpAddress := 0,
    frameCheckSum := 0 }

/-! ## The endpoint element -/

/-- Public packet flags (`TRDP_FLAGS_T`), as far as the PD engine reads
them. -/
structure PktFlags where
  callbackFlag : Bool
  marshallFlag : Bool
  forceCb      : Bool
deriving DecidableEq, Repr

/-- Private flags (`TRDP_PRIV_FLAGS_T`). -/
structure PrivFlags where
  invalidData : Bool
  timedOut    : Bool
  req2bSent   : Bool
  redundant   : Bool
deriving DecidableEq, Repr

/-- One entry of the per-source sequence list `pSeqCntList`:
last seen sequence counter per (source IP, message type). -/
structure SeqEntry where
  srcIpAddr  : Nat
  msgType    : Nat
  lastSeqCnt : Nat
deriving DecidableEq, Repr

/-- `TRDP_ADDRESSES_T`: the address tuple of an element. -/
structure TRDP_ADDRESSES_T where
  comId        : Nat
  etbTopoCnt   : Nat
  opTrnTopoCnt : Nat
  srcIpAddr    : Nat
  destIpAddr   : Nat
deriving DecidableEq, Repr

/-- `PD_ELE_T`: one publisher/subscriber record.  `hasCb` models
`pfCbFunction ≠ NULL`; the frame buffer is always allocated in this model
(the engine never enqueues an element without one on the paths covered
here). -/
structure PD_ELE_T where
  addr           : TRDP_ADDRESSES_T
  pullIpAddress  : Nat
  interval       : Nat
  timeToGo       : Nat
  pktFlags       : PktFlags
  privFlags      : PrivFlags
  dataSize       : Nat
  grossSize      : Nat
  frame          : PD_PACKET_T
  curSeqCnt      : Nat
  curSeqCnt4Pull : Nat
  seqCntList     : List SeqEntry
  updPkts        : Nat
  getPkts        : Nat
  numRxTx        : Nat
  numMissed      : Nat
  lastErr        : TRDP_ERR_T
  lastSrcIP      : Nat
  socketIdx      : Int
  hasCb          : Bool
  magic          : Nat
deriving DecidableEq, Repr

/-- PD statistics counters of the session (`stats.pd`). -/
structure PdStats where
  numRcv     : Nat
  numCrcErr  : Nat
  numProtErr : Nat
  numTopoErr : Nat
  numSend    : Nat
  numTimeout : Nat
deriving DecidableEq, Repr

/-- The session state the PD engine mutates. -/
structure TRDP_SESSION_T where
  sndQueue    : List PD_ELE_T
  rcvQueue    : List PD_ELE_T
  etbTopoCnt  : Nat
  opTrnTopoCnt : Nat
  stats       : PdStats
  newFrame    : PD_PACKET_T
  nextJob     : Nat
deriving DecidableEq, Repr

/-- The `TRDP_PD_INFO_T` record handed to a user callback. -/
structure TRDP_PD_INFO_T where
  comId        : Nat
  srcIpAddr    : Nat
  destIpAddr   : Nat
  etbTopoCnt   : Nat
  opTrnTopoCnt : Nat
  msgType      : Nat
  seqCount     : Nat
  protVersion  : Nat
  replyComId   : Nat
  replyIpAddr  : Nat
  resultCode   : TRDP_ERR_T
deriving DecidableEq, Repr

/-- Observable actions of the engine: a frame emitted on the wire, a user
callback invocation, a socket reference released, an element detached and
freed. -/
inductive PD_EVENT_T where
  | emit (comId destIp msgType seqCount : Nat) (sock : Int)
  | cbPd (info : TRDP_PD_INFO_T)
  | sockRelease (idx : Int)
  | removedEle (e : PD_ELE_T)
deriving DecidableEq, Repr

/-- Modelled from the spec (invariant (i); `trdp_utils.c` is not part of
the sources): gross packet size = header + payload padded to 4 bytes. -/
def trdp_packetSizePD (dataSize : Nat) : Nat :=
  TRDP_MIN_PD_HEADER_SIZE + 4 * ((dataSize + 3) / 4)

/-- Modelled from the spec (Table A.5; `trdp_utils.c` is not part of the
sources): a topography-counter pair is valid against a filter pair when
each component is zero on either side or the two sides agree ("if a pair
is nonzero on both sides and disagrees" it is invalid). -/
def trdp_validTopoCounters (etbTopoCnt opTrnTopoCnt etbTopoCntFilter opTrnTopoCntFilter : Nat) : Bool :=
  (etbTopoCnt == 0 || etbTopoCntFilter == 0 || etbTopoCnt == etbTopoCntFilter) &&
  (opTrnTopoCnt == 0 || opTrnTopoCntFilter == 0 || opTrnTopoCnt == opTrnTopoCntFilter)

/-! ## `trdp_pdPut` (C6, C9) -/

/-- Overwrite the first `n` bytes of `dst` with bytes from `src`
(the `memcpy(dst, src, n)` of the payload area). -/
def memcpyBytes (dst src : List Nat) (n : Nat) : List Nat :=
  src.take n ++ dst.drop n

/-- The result type of a marshaller: error code, bytes written to the
destination, updated size (`&dataSize` is in/out). -/
structure MarshallRes where
  err      : TRDP_ERR_T
  outBytes : List Nat
  outSize  : Nat
deriving DecidableEq, Repr

/-- `trdp_pdPut`: update the payload of an element.  `allocOk` models the
success of `vos_memAlloc` in the late-data reallocation; `marshall` models
an application marshaller (`none` = no marshaller registered).  Returns the
error code and the element (`none` input models a NULL element pointer). -/
def trdp_pdPut (allocOk : Bool)
    (marshall : Option (Nat → List Nat → Nat → MarshallRes))
    (pPacketIn : Option PD_ELE_T) (pData : Option (List Nat))
    (dataSizeIn : Nat) : TRDP_ERR_T × Option PD_ELE_T :=
  match pPacketIn with
  | none => (PARAM_ERR, none)
  | some pPacket0 =>
    if pPacket0.dataSize = 0 ∧ dataSizeIn = 0 then
      -- Ticket #104: a valid no-data packet; mark data valid.
      (NO_ERR, some { pPacket0 with
          privFlags.invalidData := false,
          updPkts := pPacket0.updPkts + 1 })
    else if hData : pData.isSome ∧ dataSizeIn ≠ 0 then
      let bytes := pData.get hData.1
      -- late data: enlarge the packet buffer, keeping header info
      let late := pPacket0.dataSize = 0
      let pPacket1 :=
        if late then
          { pPacket0 with dataSize := dataSizeIn,
                          grossSize := trdp_packetSizePD dataSizeIn }
        else pPacket0
      if late ∧ ¬allocOk then (MEM_ERR, some pPacket1)
      else
        let pPacket2 :=
          if late then
            -- fresh buffer: header copied over, dataset length completed
            { pPacket1 with frame :=
                { frameHead := { pPacket1.frame.frameHead with datasetLength := dataSizeIn },
                  data := [] } }
          else pPacket1
        if ¬pPacket2.pktFlags.marshallFlag ∨ marshall.isNone then
          if dataSizeIn > TRDP_MAX_PD_DATA_SIZE then (PARAM_ERR, some pPacket2)
          else
            let pPacket3 := { pPacket2 with
                frame.data := memcpyBytes pPacket2.frame.data bytes dataSizeIn }
            (NO_ERR, some { pPacket3 with
                privFlags.invalidData := false,
                updPkts := pPacket3.updPkts + 1 })
        else
          match marshall with
          | none => (NO_ERR, some pPacket2)  -- unreachable: isNone handled above
          | some f =>
            let res := f pPacket2.addr.comId bytes dataSizeIn
            let pPacket3 := { pPacket2 with
                frame.data := memcpyBytes pPacket2.frame.data res.outBytes res.outSize }
            -- Ticket #132: set and check the possibly smaller size
            if res.outSize > TRDP_MAX_PD_DATA_SIZE then (PARAM_ERR, some pPacket3)
            else
              let pPacket4 := { pPacket3 with
                  dataSize := res.outSize,
                  grossSize := trdp_packetSizePD res.outSize,
                  frame.frameHead.datasetLength := res.outSize }
              if res.err = NO_ERR then
                (NO_ERR, some { pPacket4 with
                    privFlags.invalidData := false,
                    updPkts := pPacket4.updPkts + 1 })
              else (res.err, some pPacket4)
    else
      (NO_ERR, some pPacket0)

/-- A plain publisher element used as a concrete base point by the
boundary and witness theorems. -/
def ele0 : PD_ELE_T :=
  { addr := { comId := 1000, etbTopoCnt := 0, opTrnTopoCnt := 0,
              srcIpAddr := 0, destIpAddr := 0x0A000005 },
    pullIpAddress := 0, interval := 0, timeToGo := 0,
    pktFlags := { callbackFlag := false, marshallFlag := false, forceCb := false },
    privFlags := { invalidData := true, timedOut := false,
                   req2bSent := false, redundant := false },
    dataSize := 0, grossSize := 40,
    frame := { frameHead := saneHdr 0, data := [] },
    curSeqCnt := 0, curSeqCnt4Pull := 0, seqCntList := [],
    updPkts := 0, getPkts := 0, numRxTx := 0, numMissed := 0,
    lastErr := NO_ERR, lastSrcIP := 0, socketIdx := 0, hasCb := false,
    magic := 2882400001 }

/-! ## `trdp_pdDistribute` (C8) -/

/-- The preset of `deltaTmax` in the C code: `{1000u, 0}`, i.e. 1000
seconds in microseconds. -/
def DELTA_T_PRESET : Nat := 1000000000

/-- The first scan's running minimum: the smallest interval among cyclic
elements, starting from the 1000 s preset. -/
def distDeltaTmax (q : List PD_ELE_T) : Nat :=
  q.foldl (fun d e => if e.interval ≠ 0 ∧ d > e.interval then e.interval else d)
    DELTA_T_PRESET

/-- The first scan's running maximum: the largest `timeToGo` among cyclic
elements (`tNull`). -/
def distTNull (q : List PD_ELE_T) : Nat :=
  q.foldl (fun t e => if e.interval ≠ 0 ∧ t < e.timeToGo then e.timeToGo else t) 0

/-- The number of cyclic elements (`noOfPackets`). -/
def cyclicCount (q : List PD_ELE_T) : Nat :=
  q.countP (fun e => e.interval != 0)

/-- The second scan of `trdp_pdDistribute`: assign send times
`tNull + slot×packetIndex` to cyclic elements, skipping an element whose
shifted time fails the `2×slot×packetIndex > interval` safety check; the
loop stops once `packetIndex` reaches `noOfPackets`. -/
def distAssign (slot tNull n : Nat) : Nat → List PD_ELE_T → List PD_ELE_T
  | _, [] => []
  | i, e :: rest =>
    if i < n then
      if e.interval ≠ 0 then
        (if 2 * (slot * i) > e.interval then e
         else { e with timeToGo := tNull + slot * i })
          :: distAssign slot tNull n (i + 1) rest
      else e :: distAssign slot tNull n i rest
    else e :: rest

/-- `trdp_pdDistribute`: spread send times of cyclic publishers across the
smallest interval.  The sanity check is Ticket #14: nothing to shape is
not an error. -/
def trdp_pdDistribute (pSndQueue : List PD_ELE_T) : TRDP_ERR_T × List PD_ELE_T :=
  match pSndQueue with
  | [] => (PARAM_ERR, [])
  | [e] => (NO_ERR, [e])          -- only one packet pending: do nothing
  | e1 :: e2 :: rest =>
    if distDeltaTmax (e1 :: e2 :: rest) = 0 ∨ cyclicCount (e1 :: e2 :: rest) = 0 then
      (NO_ERR, e1 :: e2 :: rest)
    else
      (NO_ERR,
        distAssign (distDeltaTmax (e1 :: e2 :: rest) / cyclicCount (e1 :: e2 :: rest))
          (distTNull (e1 :: e2 :: rest)) (cyclicCount (e1 :: e2 :: rest)) 0
          (e1 :: e2 :: rest))

/-- Both cyclic elements of the C8 counterexample: interval 2000 s (larger
than the 1000 s preset of `deltaTmax`). -/
def eleC8 : PD_ELE_T := { ele0 with interval := 2000000000 }

/-! ## The sender engine: `trdp_pdSendQueued` (C7, C10) -/

/-- The result of processing one send-queue element: the element if it
stays in the queue (`none` when the one-shot removal freed it), the
observable events, the increment of `stats.pd.numSend`, and the threaded
error variable. -/
structure SendAcc where
  kept       : Option PD_ELE_T
  events     : List PD_EVENT_T
  numSendInc : Nat
  errOut     : TRDP_ERR_T
deriving DecidableEq, Repr

/-- The `TRDP_PD_INFO_T` constructed for the publisher-side callback in
`trdp_pdSendQueued` (the `resultCode` echoes the loop's current error
variable). -/
def pdSendInfo (e : PD_ELE_T) (errIn : TRDP_ERR_T) : TRDP_PD_INFO_T :=
  { comId := e.addr.comId, srcIpAddr := e.addr.srcIpAddr,
    destIpAddr := e.addr.destIpAddr,
    etbTopoCnt := e.frame.frameHead.etbTopoCnt,
    opTrnTopoCnt := e.frame.frameHead.opTrnTopoCnt,
    msgType := e.frame.frameHead.msgType, seqCount := e.curSeqCnt,
    protVersion := e.frame.frameHead.protocolVersion,
    replyComId := e.frame.frameHead.replyComId,
    replyIpAddr := e.frame.frameHead.replyIpAddress,
    resultCode := errIn }

/-- `trdp_pdUpdate`: increment the appropriate sequence counter
(`curSeqCnt4Pull` for a PP frame, `curSeqCnt` otherwise), write it into
the header, and recompute the header FCS. -/
def trdp_pdUpdate (crc32 : PD_HEADER_T → Nat) (pPacket : PD_ELE_T) : PD_ELE_T :=
  if pPacket.frame.frameHead.msgType = TRDP_MSG_PP then
    { pPacket with
        curSeqCnt4Pull := (pPacket.curSeqCnt4Pull + 1) % U32,
        frame.frameHead.sequenceCounter := (pPacket.curSeqCnt4Pull + 1) % U32,
        frame.frameHead.frameCheckSum := crc32 (hdrSansFcs
          { pPacket.frame.frameHead with
              sequenceCounter := (pPacket.curSeqCnt4Pull + 1) % U32 }) }
  else
    { pPacket with
        curSeqCnt := (pPacket.curSeqCnt + 1) % U32,
        frame.frameHead.sequenceCounter := (pPacket.curSeqCnt + 1) % U32,
        frame.frameHead.frameCheckSum := crc32 (hdrSansFcs
          { pPacket.frame.frameHead with
              sequenceCounter := (pPacket.curSeqCnt + 1) % U32 }) }

/-- `trdp_pdSend`: send one PD packet.  A nonzero `pullIpAddress` is the
temporary destination of a PD PULL and is consumed by the send. -/
def trdp_pdSend (udpOk : Int → Nat → Bool) (pPacket : PD_ELE_T) :
    TRDP_ERR_T × PD_ELE_T × List PD_EVENT_T :=
  if pPacket.pullIpAddress ≠ 0 then
    if udpOk pPacket.socketIdx pPacket.pullIpAddress then
      (NO_ERR, { pPacket with pullIpAddress := 0 },
        [PD_EVENT_T.emit pPacket.addr.comId pPacket.pullIpAddress
          pPacket.frame.frameHead.msgType pPacket.frame.frameHead.sequenceCounter
          pPacket.socketIdx])
    else (IO_ERR, { pPacket with pullIpAddress := 0 }, [])
  else
    if udpOk pPacket.socketIdx pPacket.addr.destIpAddr then
      (NO_ERR, pPacket,
        [PD_EVENT_T.emit pPacket.addr.comId pPacket.addr.destIpAddr
          pPacket.frame.frameHead.msgType pPacket.frame.frameHead.sequenceCounter
          pPacket.socketIdx])
    else (IO_ERR, pPacket, [])

/-- The PULL swap at the head of the send block: a requested element
whose frame still carries msgType PD is emitted as PP. -/
def pullSwap (e : PD_ELE_T) : PD_ELE_T :=
  if e.privFlags.req2bSent ∧ e.frame.frameHead.msgType = TRDP_MSG_PD
  then { e with frame.frameHead.msgType := TRDP_MSG_PP } else e

/-- The tail of the send block, after sequence/CRC update: publisher
topology check (Table A.5), socket check, redundancy check, publisher
callback, send.  Returns the element, the events, the `numSend`
increment, and the loop's error variable. -/
def sendBody (udpOk : Int → Nat → Bool) (sessionEtb sessionOp : Nat)
    (errIn : TRDP_ERR_T) (eB : PD_ELE_T) :
    PD_ELE_T × List PD_EVENT_T × Nat × TRDP_ERR_T :=
  if ¬(trdp_validTopoCounters sessionEtb sessionOp
        eB.frame.frameHead.etbTopoCnt eB.frame.frameHead.opTrnTopoCnt) then
    (eB, [], 0, TOPO_ERR)
  else if eB.socketIdx = -1 then
    (eB, [], 0, errIn)
  else if eB.privFlags.redundant then
    (eB, [], 0, errIn)
  else
    if (trdp_pdSend udpOk eB).1 = NO_ERR then
      ({ (trdp_pdSend udpOk eB).2.1 with
          numRxTx := (trdp_pdSend udpOk eB).2.1.numRxTx + 1 },
       (if eB.hasCb then [PD_EVENT_T.cbPd (pdSendInfo eB errIn)] else [])
         ++ (trdp_pdSend udpOk eB).2.2,
       1, errIn)
    else
      ((trdp_pdSend udpOk eB).2.1,
       (if eB.hasCb then [PD_EVENT_T.cbPd (pdSendInfo eB errIn)] else [])
         ++ (trdp_pdSend udpOk eB).2.2,
       0, (trdp_pdSend udpOk eB).1)

/-- The send block of `trdp_pdSendQueued` for one eligible element: do
nothing without valid data, else PULL swap, sequence/CRC update, and the
checked send. -/
def sendAttempt (crc32 : PD_HEADER_T → Nat) (udpOk : Int → Nat → Bool)
    (sessionEtb sessionOp : Nat) (errIn : TRDP_ERR_T) (e : PD_ELE_T) :
    PD_ELE_T × List PD_EVENT_T × Nat × TRDP_ERR_T :=
  if e.privFlags.invalidData then (e, [], 0, errIn)
  else sendBody udpOk sessionEtb sessionOp errIn (trdp_pdUpdate crc32 (pullSwap e))

/-- One iteration of the `trdp_pdSendQueued` loop: eligibility, send
attempt, pulled-PD restore or timer advance, `REQ_2B_SENT` clearing, and
one-shot PR removal. -/
def sendOne (crc32 : PD_HEADER_T → Nat) (udpOk : Int → Nat → Bool)
    (now sessionEtb sessionOp : Nat) (errIn : TRDP_ERR_T) (e : PD_ELE_T) : SendAcc :=
  if (e.interval ≠ 0 ∧ e.timeToGo ≤ now) ∨ e.privFlags.req2bSent then
    let r := sendAttempt crc32 udpOk sessionEtb sessionOp errIn e
    let e1 := r.1
    let e2 :=
      if e1.privFlags.req2bSent ∧ e1.frame.frameHead.msgType = TRDP_MSG_PP then
        -- do not reset the timer, but restore the msgType
        { e1 with frame.frameHead.msgType := TRDP_MSG_PD }
      else if e1.interval ≠ 0 then
        if e1.timeToGo + e1.interval ≤ now then
          -- more than one interval late: avoid sending again next cycle
          { e1 with timeToGo := now + e1.interval }
        else { e1 with timeToGo := e1.timeToGo + e1.interval }
      else e1
    let e3 := { e2 with privFlags.req2bSent := false }
    if e3.frame.frameHead.msgType = TRDP_MSG_PR then
      { kept := none,
        events := r.2.1 ++ [PD_EVENT_T.sockRelease e3.socketIdx,
                            PD_EVENT_T.removedEle { e3 with magic := 0 }],
        numSendInc := r.2.2.1, errOut := r.2.2.2 }
    else
      { kept := some e3, events := r.2.1, numSendInc := r.2.2.1, errOut := r.2.2.2 }
  else
    { kept := some e, events := [], numSendInc := 0, errOut := errIn }

/-- The walk of `trdp_pdSendQueued` over the send queue, threading the
error variable exactly as the C loop does. -/
def sendQueuedGo (crc32 : PD_HEADER_T → Nat) (udpOk : Int → Nat → Bool)
    (now sessionEtb sessionOp : Nat) :
    List PD_ELE_T → TRDP_ERR_T → List PD_ELE_T × List PD_EVENT_T × Nat × TRDP_ERR_T
  | [], errIn => ([], [], 0, errIn)
  | e :: rest, errIn =>
    let r := sendOne crc32 udpOk now sessionEtb sessionOp errIn e
    let rr := sendQueuedGo crc32 udpOk now sessionEtb sessionOp rest r.errOut
    ((match r.kept with
      | some e' => e' :: rr.1
      | none => rr.1),
     r.events ++ rr.2.1, r.numSendInc + rr.2.2.1, rr.2.2.2)

/-- `trdp_pdSendQueued`: send all due PD messages of the session. -/
def trdp_pdSendQueued (crc32 : PD_HEADER_T → Nat) (udpOk : Int → Nat → Bool)
    (now : Nat) (appHandle : TRDP_SESSION_T) :
    TRDP_SESSION_T × List PD_EVENT_T × TRDP_ERR_T :=
  let r := sendQueuedGo crc32 udpOk now appHandle.etbTopoCnt appHandle.opTrnTopoCnt
    appHandle.sndQueue NO_ERR
  ({ appHandle with
      sndQueue := r.1, nextJob := 0,
      stats.numSend := appHandle.stats.numSend + r.2.2.1 },
   r.2.1, r.2.2.2)

/-- The eligibility test of the send loop ("due"): cyclic and reached, or
requested for immediate sending. -/
def isDue (now : Nat) (e : PD_ELE_T) : Bool :=
  (e.interval != 0 && decide (e.timeToGo ≤ now)) || e.privFlags.req2bSent

/-- The requested PR element used by the C10 witness. -/
def eleC10 : PD_ELE_T :=
  { ele0 with
      privFlags.req2bSent := true,
      frame.frameHead.msgType := TRDP_MSG_PR }

/-! ## Queues, sequence lists, and the receiver engine -/

/-- `trdp_queueFindComId`: first element of the queue with the given
ComID. -/
def trdp_queueFindComId : List PD_ELE_T → Nat → Option PD_ELE_T
  | [], _ => none
  | e :: rest, comId =>
    if e.addr.comId = comId then some e else trdp_queueFindComId rest comId

/-- In-place mutation through the pointer returned by
`trdp_queueFindComId`: apply `f` to the first element with the given
ComID. -/
def queueUpdateComId : List PD_ELE_T → Nat → (PD_ELE_T → PD_ELE_T) → List PD_ELE_T
  | [], _, _ => []
  | e :: rest, comId, f =>
    if e.addr.comId = comId then f e :: rest
    else e :: queueUpdateComId rest comId f

/-- Modelled from the spec (§4.3, `trdp_utils.c` is not part of the
sources): a subscriber matches an incoming address by ComID, destination
IP (the subscription's destination, 0 = any), and the optional source
filter (0 = any source). -/
def subMatch (e : PD_ELE_T) (comId srcIp destIp : Nat) : Bool :=
  e.addr.comId == comId
  && (e.addr.destIpAddr == 0 || e.addr.destIpAddr == destIp)
  && (e.addr.srcIpAddr == 0 || e.addr.srcIpAddr == srcIp)

/-- `trdp_queueFindSubAddr`: the first subscriber matching the incoming
address. -/
def trdp_queueFindSubAddr : List PD_ELE_T → Nat → Nat → Nat → Option PD_ELE_T
  | [], _, _, _ => none
  | e :: rest, comId, srcIp, destIp =>
    if subMatch e comId srcIp destIp then some e
    else trdp_queueFindSubAddr rest comId srcIp destIp

/-- In-place mutation through the pointer returned by
`trdp_queueFindSubAddr`: replace the first matching subscriber. -/
def replaceFirstSub : List PD_ELE_T → Nat → Nat → Nat → PD_ELE_T → List PD_ELE_T
  | [], _, _, _, _ => []
  | e :: rest, comId, srcIp, destIp, v =>
    if subMatch e comId srcIp destIp then v :: rest
    else e :: replaceFirstSub rest comId srcIp destIp v

/-- Lookup of the last seen sequence counter for (source IP, msgType). -/
def seqListLookup : List SeqEntry → Nat → Nat → Option Nat
  | [], _, _ => none
  | ent :: rest, srcIp, msgT =>
    if ent.srcIpAddr = srcIp ∧ ent.msgType = msgT then some ent.lastSeqCnt
    else seqListLookup rest srcIp msgT

/-- Store a new last-seen sequence counter for (source IP, msgType). -/
def seqListStore : List SeqEntry → Nat → Nat → Nat → List SeqEntry
  | [], _, _, _ => []
  | ent :: rest, srcIp, msgT, v =>
    if ent.srcIpAddr = srcIp ∧ ent.msgType = msgT then
      { ent with lastSeqCnt := v } :: rest
    else ent :: seqListStore rest srcIp msgT v

/-- Modelled from the spec (§4.5 step 7, `trdp_utils.c` is not part of
the sources): on `newSeq = 0` the engine resets that source's entry in
`pSeqCntList`, returning the sender to the new/restarted state so that
its next frame is accepted. -/
def trdp_resetSequenceCounter (pElement : PD_ELE_T) (srcIp msgT : Nat) : PD_ELE_T :=
  { pElement with
      seqCntList := pElement.seqCntList.filter
        (fun ent => !(ent.srcIpAddr == srcIp && ent.msgType == msgT)) }

/-- Modelled from the spec (§4.5 step 7, `trdp_utils.c` is not part of
the sources): consult `pSeqCntList` — 0 = accept (newSeq strictly
greater than the last seen for this source and type, entry updated; a
source not yet tracked is accepted and recorded), 1 = duplicate or too
old, −1 = list full (the mapping is bounded by `cap`). -/
def trdp_checkSequenceCounter (cap : Nat) (pElement : PD_ELE_T)
    (seq srcIp msgT : Nat) : Int × PD_ELE_T :=
  match seqListLookup pElement.seqCntList srcIp msgT with
  | some last =>
    if seq > last then
      (0, { pElement with seqCntList := seqListStore pElement.seqCntList srcIp msgT seq })
    else (1, pElement)
  | none =>
    if pElement.seqCntList.length < cap then
      (0, { pElement with seqCntList := pElement.seqCntList ++ [⟨srcIp, msgT, seq⟩] })
    else (-1, pElement)

/-- `trdp_pdInit`: write the header fields of an element (does not touch
the sequence counter or the FCS). -/
def trdp_pdInit (pPacket : PD_ELE_T) (msgT etbTopoCnt opTrnTopoCnt replyComId replyIpAddress : Nat) :
    PD_ELE_T :=
  { pPacket with frame.frameHead :=
      { pPacket.frame.frameHead with
          protocolVersion := TRDP_PROTO_VER,
          etbTopoCnt := etbTopoCnt,
          opTrnTopoCnt := opTrnTopoCnt,
          comId := pPacket.addr.comId,
          msgType := msgT,
          datasetLength := pPacket.dataSize,
          reserved := 0,
          replyComId := replyComId,
          replyIpAddress := replyIpAddress } }

/-- The gap accounting of `trdp_pdReceive` (lines 621-628), in exact
32-bit arithmetic: if `newSeq > curSeqCnt + 1` (and `newSeq > 0`),
`numMissed += newSeq − curSeqCnt − 1`; else if `curSeqCnt > newSeq`,
`numMissed += UINT32_MAX − curSeqCnt + newSeq`. -/
def gapNumMissed (numMissed curSeqCnt newSeqCnt : Nat) : Nat :=
  if newSeqCnt > 0 ∧ newSeqCnt > (curSeqCnt + 1) % U32 then
    (numMissed + ((newSeqCnt + U32 - ((curSeqCnt + 1) % U32)) % U32)) % U32
  else if curSeqCnt > newSeqCnt then
    (numMissed + (UINT32_MAX - curSeqCnt + newSeqCnt)) % U32
  else numMissed

/-- The `TRDP_PD_INFO_T` built for the receive-path callback from the
subscriber element (after the swap on acceptance, before it on a
subscriber topology error). -/
def pdRcvInfo (e : PD_ELE_T) (destIp : Nat) (err : TRDP_ERR_T) : TRDP_PD_INFO_T :=
  { comId := e.addr.comId, srcIpAddr := e.lastSrcIP, destIpAddr := destIp,
    etbTopoCnt := e.frame.frameHead.etbTopoCnt,
    opTrnTopoCnt := e.frame.frameHead.opTrnTopoCnt,
    msgType := e.frame.frameHead.msgType, seqCount := e.curSeqCnt,
    protVersion := e.frame.frameHead.protocolVersion,
    replyComId := e.frame.frameHead.replyComId,
    replyIpAddr := e.frame.frameHead.replyIpAddress,
    resultCode := err }

/-- The element mutations of the receiver that precede the sequence
check: record the source IP and the real destination, and reset the
per-source tracking when the sender announces a restart (`seq = 0`). -/
def rcvSeqElem (el : PD_ELE_T) (hdr : PD_HEADER_T) (srcIp destIp : Nat) : PD_ELE_T :=
  if hdr.sequenceCounter = 0 then
    trdp_resetSequenceCounter
      { el with lastSrcIP := srcIp, addr.destIpAddr := destIp } srcIp hdr.msgType
  else { el with lastSrcIP := srcIp, addr.destIpAddr := destIp }

/-- The subscriber element after sequence-list update, gap accounting and
size bookkeeping (the state at the change-detection step of the
receiver). -/
def rcvElemUpd (seqCap srcIp destIp : Nat) (pkt : PD_PACKET_T) (el : PD_ELE_T) :
    PD_ELE_T :=
  { (trdp_checkSequenceCounter seqCap (rcvSeqElem el pkt.frameHead srcIp destIp)
      pkt.frameHead.sequenceCounter srcIp pkt.frameHead.msgType).2 with
      numMissed := gapNumMissed
        (trdp_checkSequenceCounter seqCap (rcvSeqElem el pkt.frameHead srcIp destIp)
          pkt.frameHead.sequenceCounter srcIp pkt.frameHead.msgType).2.numMissed
        (trdp_checkSequenceCounter seqCap (rcvSeqElem el pkt.frameHead srcIp destIp)
          pkt.frameHead.sequenceCounter srcIp pkt.frameHead.msgType).2.curSeqCnt
        pkt.frameHead.sequenceCounter,
      curSeqCnt := pkt.frameHead.sequenceCounter,
      dataSize := pkt.frameHead.datasetLength,
      grossSize := trdp_packetSizePD pkt.frameHead.datasetLength }

/-- The subscriber element as left behind by an accepting receive: timer
re-armed, statistics updated, flags cleared, and the new frame swapped
in. -/
def rcvElemFinal (seqCap now srcIp destIp : Nat) (pkt : PD_PACKET_T) (el : PD_ELE_T) :
    PD_ELE_T :=
  { rcvElemUpd seqCap srcIp destIp pkt el with
      timeToGo := now + (rcvElemUpd seqCap srcIp destIp pkt el).interval,
      numRxTx := (rcvElemUpd seqCap srcIp destIp pkt el).numRxTx + 1,
      lastErr := NO_ERR,
      privFlags.timedOut := false,
      privFlags.invalidData := false,
      frame := pkt }

/-- Steps 5-12 of the receiver: subscription match, subscriber topology
gate, sequence discipline, gap accounting, change detection, timer
re-arm, buffer swap, and the user callback.  `informUser1` and `evs1`
carry the outcome of the PULL-request branch. -/
def receiveSubscriber (seqCap now srcIp destIp : Nat) (informUser1 : Bool)
    (s : TRDP_SESSION_T) (evs1 : List PD_EVENT_T) :
    TRDP_SESSION_T × List PD_EVENT_T × TRDP_ERR_T :=
  match trdp_queueFindSubAddr s.rcvQueue s.newFrame.frameHead.comId srcIp destIp with
  | none => (s, evs1, NOSUB_ERR)
  | some el =>
    if (s.newFrame.frameHead.etbTopoCnt = 0 ∧ s.newFrame.frameHead.opTrnTopoCnt = 0)
        ∨ trdp_validTopoCounters s.newFrame.frameHead.etbTopoCnt
            s.newFrame.frameHead.opTrnTopoCnt
            el.addr.etbTopoCnt el.addr.opTrnTopoCnt then
      let el2 := rcvSeqElem el s.newFrame.frameHead srcIp destIp
      let chk := trdp_checkSequenceCounter seqCap el2
        s.newFrame.frameHead.sequenceCounter srcIp s.newFrame.frameHead.msgType
      if chk.1 = -1 then
        ({ s with
            rcvQueue := replaceFirstSub s.rcvQueue
              s.newFrame.frameHead.comId srcIp destIp chk.2 }, evs1, MEM_ERR)
      else if chk.1 = 1 then
        -- old or duplicate data: ignored with NO_ERR
        ({ s with
            rcvQueue := replaceFirstSub s.rcvQueue
              s.newFrame.frameHead.comId srcIp destIp chk.2 }, evs1, NO_ERR)
      else
        let el5 := rcvElemUpd seqCap srcIp destIp s.newFrame el
        let informUser2 :=
          if el5.pktFlags.callbackFlag then
            if el5.pktFlags.forceCb ∨ el5.privFlags.timedOut then true
            else if s.newFrame.data.take el5.dataSize ≠ el5.frame.data.take el5.dataSize
            then true
            else informUser1
          else informUser1
        let el7 := rcvElemFinal seqCap now srcIp destIp s.newFrame el
        let s2 := { s with
            rcvQueue := replaceFirstSub s.rcvQueue
              s.newFrame.frameHead.comId srcIp destIp el7,
            newFrame := el5.frame }
        (s2,
         evs1 ++ (if informUser2 = true ∧ el7.pktFlags.callbackFlag = true
                      ∧ el7.hasCb = true
                  then [PD_EVENT_T.cbPd (pdRcvInfo el7 destIp NO_ERR)] else []),
         NO_ERR)
    else
      ({ s with
          rcvQueue := replaceFirstSub s.rcvQueue
            s.newFrame.frameHead.comId srcIp destIp { el with lastErr := TOPO_ERR },
          stats.numTopoErr := s.stats.numTopoErr + 1 },
       evs1 ++ (if el.pktFlags.callbackFlag = true ∧ el.hasCb = true
                then [PD_EVENT_T.cbPd
                  (pdRcvInfo { el with lastErr := TOPO_ERR } destIp TOPO_ERR)] else []),
       TOPO_ERR)

/-- Step 4 of the receiver: the PULL-request branch.  For the
distinguished statistics ComID the published statistics reply element is
re-addressed, re-initialised as PP and its payload snapshotted
(`prepStats` models `trdp_pdPrepareStats`, `trdp_stats.c` is not part of
the sources); then — for any found publisher — the one-shot destination
and `REQ_2B_SENT` are set and `trdp_pdSendQueued` runs within this call.
Returns the session, the events, and `informUser`. -/
def receivePullReq (crc32 : PD_HEADER_T → Nat) (udpOk : Int → Nat → Bool)
    (prepStats : TRDP_SESSION_T → PD_ELE_T → PD_ELE_T) (now srcIp : Nat)
    (s : TRDP_SESSION_T) : TRDP_SESSION_T × List PD_EVENT_T × Bool :=
  if s.newFrame.frameHead.msgType = TRDP_MSG_PR then
    if s.newFrame.frameHead.comId = TRDP_STATISTICS_PULL_COMID then
      match trdp_queueFindComId s.sndQueue TRDP_GLOBAL_STATISTICS_COMID with
      | some _ =>
        let r := trdp_pdSendQueued crc32 udpOk now
          { s with
              sndQueue := queueUpdateComId s.sndQueue TRDP_GLOBAL_STATISTICS_COMID
                (fun e =>
                { prepStats s (trdp_pdInit
                    { e with addr.comId := TRDP_GLOBAL_STATISTICS_COMID,
                             addr.destIpAddr := s.newFrame.frameHead.replyIpAddress }
                    TRDP_MSG_PP s.etbTopoCnt s.opTrnTopoCnt 0 0) with
                  pullIpAddress := if s.newFrame.frameHead.replyIpAddress ≠ 0
                    then s.newFrame.frameHead.replyIpAddress else srcIp,
                  privFlags.req2bSent := true }) }
        (r.1, r.2.1, true)
      | none => (s, [], false)
    else
      match trdp_queueFindComId s.sndQueue
          (if s.newFrame.frameHead.replyComId = 0 then s.newFrame.frameHead.comId
           else s.newFrame.frameHead.replyComId) with
      | some _ =>
        let r := trdp_pdSendQueued crc32 udpOk now
          { s with
              sndQueue := queueUpdateComId s.sndQueue
                (if s.newFrame.frameHead.replyComId = 0 then s.newFrame.frameHead.comId
                 else s.newFrame.frameHead.replyComId)
                (fun e =>
                  { e with
                      pullIpAddress := if s.newFrame.frameHead.replyIpAddress ≠ 0
                        then s.newFrame.frameHead.replyIpAddress else srcIp,
                      privFlags.req2bSent := true }) }
        (r.1, r.2.1, true)
      | none => (s, [], false)
  else (s, [], false)

/-- `trdp_pdReceive`: process one frame (already read off the socket into
the scratch `pNewFrame`, given here as `inPkt` with its observed size,
source and destination). -/
def trdp_pdReceive (crc32 : PD_HEADER_T → Nat) (udpOk : Int → Nat → Bool)
    (prepStats : TRDP_SESSION_T → PD_ELE_T → PD_ELE_T) (seqCap now : Nat)
    (appHandle : TRDP_SESSION_T) (inPkt : PD_PACKET_T)
    (recSize srcIp destIp : Nat) : TRDP_SESSION_T × List PD_EVENT_T × TRDP_ERR_T :=
  match trdp_pdCheck crc32 inPkt.frameHead recSize with
  | NO_ERR =>
    if ¬ trdp_validTopoCounters appHandle.etbTopoCnt appHandle.opTrnTopoCnt
        inPkt.frameHead.etbTopoCnt inPkt.frameHead.opTrnTopoCnt then
      ({ appHandle with
          newFrame := inPkt,
          stats.numRcv := appHandle.stats.numRcv + 1,
          stats.numTopoErr := appHandle.stats.numTopoErr + 1 }, [], TOPO_ERR)
    else
      let r := receivePullReq crc32 udpOk prepStats now srcIp
        { appHandle with
            newFrame := inPkt,
            stats.numRcv := appHandle.stats.numRcv + 1 }
      receiveSubscriber seqCap now srcIp destIp r.2.2 r.1 r.2.1
  | CRC_ERR =>
    ({ appHandle with
        newFrame := inPkt,
        stats.numCrcErr := appHandle.stats.numCrcErr + 1 }, [], CRC_ERR)
  | WIRE_ERR =>
    ({ appHandle with
        newFrame := inPkt,
        stats.numProtErr := appHandle.stats.numProtErr + 1 }, [], WIRE_ERR)
  | err => ({ appHandle with newFrame := inPkt }, [], err)

/-! ## The timeout scanner: `trdp_pdHandleTimeOuts` (C4) -/

/-- The zero-filled-then-populated `TRDP_PD_INFO_T` of a timeout
notification (the element's frame buffer is allocated in this model, so
the populated branch of the C code applies). -/
def pdTimeoutInfo (e : PD_ELE_T) : TRDP_PD_INFO_T :=
  { comId := e.addr.comId, srcIpAddr := e.addr.srcIpAddr,
    destIpAddr := e.addr.destIpAddr,
    etbTopoCnt := e.frame.frameHead.etbTopoCnt,
    opTrnTopoCnt := e.frame.frameHead.opTrnTopoCnt,
    msgType := e.frame.frameHead.msgType,
    seqCount := e.frame.frameHead.sequenceCounter,
    protVersion := e.frame.frameHead.protocolVersion,
    replyComId := e.frame.frameHead.replyComId,
    replyIpAddr := e.frame.frameHead.replyIpAddress,
    resultCode := TIMEOUT_ERR }

/-- One subscriber of the timeout scan: a late, armed, cyclic subscriber
that is not already flagged (and is not the statistics-pull subscription)
is counted, recorded, notified once, and flagged `TIMED_OUT`. -/
def timeoutOne (now : Nat) (e : PD_ELE_T) : PD_ELE_T × List PD_EVENT_T × Nat :=
  if e.interval ≠ 0 ∧ e.timeToGo ≠ 0 ∧ e.timeToGo ≤ now
      ∧ e.privFlags.timedOut = false ∧ e.addr.comId ≠ TRDP_STATISTICS_PULL_COMID then
    ({ e with lastErr := TIMEOUT_ERR, privFlags.timedOut := true },
     if e.hasCb then [PD_EVENT_T.cbPd (pdTimeoutInfo e)] else [],
     1)
  else (e, [], 0)

/-- The walk of the timeout scanner over the receive queue. -/
def timeoutsGo (now : Nat) : List PD_ELE_T → List PD_ELE_T × List PD_EVENT_T × Nat
  | [] => ([], [], 0)
  | e :: rest =>
    ((timeoutOne now e).1 :: (timeoutsGo now rest).1,
     (timeoutOne now e).2.1 ++ (timeoutsGo now rest).2.1,
     (timeoutOne now e).2.2 + (timeoutsGo now rest).2.2)

/-- `trdp_pdHandleTimeOuts`: scan the receive queue for late subscribers. -/
def trdp_pdHandleTimeOuts (now : Nat) (appHandle : TRDP_SESSION_T) :
    TRDP_SESSION_T × List PD_EVENT_T :=
  ({ appHandle with
      rcvQueue := (timeoutsGo now appHandle.rcvQueue).1,
      stats.numTimeout := appHandle.stats.numTimeout
        + (timeoutsGo now appHandle.rcvQueue).2.2 },
   (timeoutsGo now appHandle.rcvQueue).2.1)

/-- The subscriber used by the C4 witness: 100 ms interval, timed
out at `now = 600000`. -/
def eleC4 : PD_ELE_T :=
  { ele0 with interval := 100000, timeToGo := 500000, hasCb := true }

/-- The subscriber of the C1 scenario: cyclic, tracking source
167772161 (10.0.0.1) at sequence counter 42. -/
def subC1 : PD_ELE_T :=
  { ele0 with
      addr := { comId := 7, etbTopoCnt := 0, opTrnTopoCnt := 0,
                srcIpAddr := 0, destIpAddr := 0 },
      interval := 1000000,
      curSeqCnt := 42,
      seqCntList := [⟨167772161, TRDP_MSG_PD, 42⟩] }

/-- The restart frame of the C1 scenario: sequence counter 0. -/
def pktC1 : PD_PACKET_T :=
  { frameHead := { saneHdr 0 with comId := 7, sequenceCounter := 0 }, data := [] }

/-- The session of the C1 scenario. -/
def sesC1 : TRDP_SESSION_T :=
  { sndQueue := [], rcvQueue := [subC1], etbTopoCnt := 0, opTrnTopoCnt := 0,
    stats := { numRcv := 0, numCrcErr := 0, numProtErr := 0, numTopoErr := 0,
               numSend := 0, numTimeout := 0 },
    newFrame := { frameHead := saneHdr 0, data := [] }, nextJob := 0 }

/-- The subscriber of the C2 scenario: stored topography pair (5, 3). -/
def subC2 : PD_ELE_T :=
  { ele0 with
      addr := { comId := 9, etbTopoCnt := 5, opTrnTopoCnt := 3,
                srcIpAddr := 0, destIpAddr := 0 },
      interval := 1000000,
      curSeqCnt := 4 }

/-- The C2 counterexample frame: topography pair (0, 0). -/
def pktC2 : PD_PACKET_T :=
  { frameHead := { saneHdr 0 with comId := 9, sequenceCounter := 5 }, data := [] }

/-- The session of the C2 scenario. -/
def sesC2 : TRDP_SESSION_T :=
  { sesC1 with rcvQueue := [subC2] }

/-- The C2 witness frame: topography pair (5, 9), mismatching the
stored (5, 3) even under wildcards. -/
def pktC2w : PD_PACKET_T :=
  { frameHead :=
      { saneHdr 0 with
          comId := 9, sequenceCounter := 5, etbTopoCnt := 5, opTrnTopoCnt := 9 },
    data := [] }

/-- The session state after step 4b of the receiver has registered the
PULL request on the matched publisher (one-shot destination and
`REQ_2B_SENT` set), just before `trdp_pdSendQueued` runs. -/
def pulledSession (srcIp : Nat) (s : TRDP_SESSION_T) (inPkt : PD_PACKET_T) :
    TRDP_SESSION_T :=
  { s with
      newFrame := inPkt,
      stats.numRcv := s.stats.numRcv + 1,
      sndQueue := queueUpdateComId s.sndQueue
        (if inPkt.frameHead.replyComId = 0 then inPkt.frameHead.comId
         else inPkt.frameHead.replyComId)
        (fun e =>
          { e with
              pullIpAddress := if inPkt.frameHead.replyIpAddress ≠ 0
                then inPkt.frameHead.replyIpAddress else srcIp,
              privFlags.req2bSent := true }) }

/-- The publisher of the C3 scenario: cyclic PD with valid data. -/
def eleC3 : PD_ELE_T :=
  { ele0 with
      interval := 1000000, timeToGo := 5,
      privFlags := { invalidData := false, timedOut := false,
                     req2bSent := false, redundant := false } }

/-- The PULL request frame of the C3 scenario: `replyComId` 0 (so the
request's own ComID selects the publisher) and `replyIpAddress` 0 (so the
reply goes back to the requester). -/
def pktC3 : PD_PACKET_T :=
  { frameHead := { saneHdr 0 with msgType := TRDP_MSG_PR }, data := [] }

/-- The session of the C3 scenario: one publisher, no subscriptions. -/
def sesC3 : TRDP_SESSION_T :=
  { sndQueue := [eleC3], rcvQueue := [], etbTopoCnt := 0, opTrnTopoCnt := 0,
    stats := { numRcv := 0, numCrcErr := 0, numProtErr := 0, numTopoErr := 0,
               numSend := 0, numTimeout := 0 },
    newFrame := { frameHead := saneHdr 0, data := [] }, nextJob := 0 }

/-- **C5** — `trdp_pdCheck` classifies exactly as specified: `WireErr`
outside the size window `[MIN_HEADER, MAX_PACKET]`; otherwise `CrcErr`
when the stored FCS differs from the CRC over the header bytes excluding
the FCS; otherwise `WireErr` when the masked protocol version differs
from the engine constant, or `datasetLength` exceeds 1432, or the message
type is not one of PD/PP/PR/PE; otherwise `NoErr`.  The boundary is
sharp: `datasetLength = 1432` is accepted, 1433 is rejected. -/
theorem c5_pdCheck_classification :
    (∀ (crc32 : PD_HEADER_T → Nat) (h : PD_HEADER_T) (sz : Nat),
      trdp_pdCheck crc32 h sz = pdCheckSpec crc32 h sz)
    ∧ trdp_pdCheck (fun _ => 0) (saneHdr 1432) 1472 = NO_ERR
    ∧ trdp_pdCheck (fun _ => 0) (saneHdr 1433) 1472 = WIRE_ERR := by
  refine ⟨?_, by decide, by decide⟩
  intro crc32 h sz
  unfold trdp_pdCheck pdCheckSpec
  by_cases h1 : sz < TRDP_MIN_PD_HEADER_SIZE ∨ sz > TRDP_MAX_PD_PACKET_SIZE
  · simp only [h1, if_true]
    have : ¬(TRDP_MIN_PD_HEADER_SIZE ≤ sz ∧ sz ≤ TRDP_MAX_PD_PACKET_SIZE) := by
      omega
    simp [this]
  · have h1' : TRDP_MIN_PD_HEADER_SIZE ≤ sz ∧ sz ≤ TRDP_MAX_PD_PACKET_SIZE := by
      omega
    simp only [h1, if_false, h1', if_true]
    by_cases h2 : h.frameCheckSum = crc32 (hdrSansFcs h)
    · simp only [h2, if_true, ne_eq, not_true_eq_false, if_false]
      by_cases h3 : (h.protocolVersion &&& TRDP_PROTOCOL_VERSION_CHECK_MASK)
          = (TRDP_PROTO_VER &&& TRDP_PROTOCOL_VERSION_CHECK_MASK)
          ∧ h.datasetLength ≤ TRDP_MAX_PD_DATA_SIZE
      · have h3' : ¬((h.protocolVersion &&& TRDP_PROTOCOL_VERSION_CHECK_MASK)
            ≠ (TRDP_PROTO_VER &&& TRDP_PROTOCOL_VERSION_CHECK_MASK)
            ∨ h.datasetLength > TRDP_MAX_PD_DATA_SIZE) := by
          push_neg
          exact ⟨h3.1, h3.2⟩
        simp only [h3', if_false, h3, if_true]
        by_cases h4 : h.msgType = TRDP_MSG_PD ∨ h.msgType = TRDP_MSG_PP
            ∨ h.msgType = TRDP_MSG_PR ∨ h.msgType = TRDP_MSG_PE
        · have h4' : ¬(h.msgType ≠ TRDP_MSG_PD ∧ h.msgType ≠ TRDP_MSG_PP
              ∧ h.msgType ≠ TRDP_MSG_PR ∧ h.msgType ≠ TRDP_MSG_PE) := by
            tauto
          simp [h4', h4, h3.1, h3.2]
        · have h4' : h.msgType ≠ TRDP_MSG_PD ∧ h.msgType ≠ TRDP_MSG_PP
              ∧ h.msgType ≠ TRDP_MSG_PR ∧ h.msgType ≠ TRDP_MSG_PE := by
            tauto
          simp [h4', h4, h3.1, h3.2]
      · have h3' : (h.protocolVersion &&& TRDP_PROTOCOL_VERSION_CHECK_MASK)
            ≠ (TRDP_PROTO_VER &&& TRDP_PROTOCOL_VERSION_CHECK_MASK)
            ∨ h.datasetLength > TRDP_MAX_PD_DATA_SIZE := by
          by_contra hc
          push_neg at hc
          exact h3 ⟨hc.1, by omega⟩
        simp [h3', h3]
    · simp [h2]

/-- **C6 counterexample** — the claim "on every such error return the
element is unchanged" is false: putting an oversize payload (1433 bytes)
into an element whose prior `dataSize` was 0 returns `ParamErr`, yet the
element's `dataSize`, `grossSize` and header `datasetLength` have already
been updated to the oversize values. -/
theorem c6_put_error_mutates_counterexample :
    (trdp_pdPut true none (some ele0) (some []) 1433).1 = PARAM_ERR
    ∧ ele0.dataSize = 0
    ∧ (trdp_pdPut true none (some ele0) (some []) 1433).2.map PD_ELE_T.dataSize
        = some 1433
    ∧ (trdp_pdPut true none (some ele0) (some []) 1433).2.map
        (fun q => q.frame.frameHead.datasetLength) = some 1433 := by
  decide

/-- **C6 (amended)** — with no marshaller registered, `Put` on a supplied
payload fails with `MemErr` exactly when the late-data reallocation fails
(prior `dataSize = 0` and allocation fails), otherwise with `ParamErr`
exactly when the size exceeds `MAX_PD_DATA` (a NULL element is also
`ParamErr`); on every error return `INVALID_DATA` and `updPkts` keep their
prior values, and an element whose prior `dataSize` was nonzero is
returned completely unchanged — but in the late-data path `dataSize` and
`grossSize` (and, past a successful reallocation, the header
`datasetLength`) have already been updated before the error returns. -/
theorem c6_put_error_classification (allocOk : Bool) (p : PD_ELE_T)
    (bs : List Nat) (n : Nat) (hn : n ≠ 0) :
    ((trdp_pdPut allocOk none (some p) (some bs) n).1
      = if p.dataSize = 0 ∧ ¬allocOk then MEM_ERR
        else if n > TRDP_MAX_PD_DATA_SIZE then PARAM_ERR else NO_ERR)
    ∧ (trdp_pdPut allocOk none none (some bs) n).1 = PARAM_ERR
    ∧ ((trdp_pdPut allocOk none (some p) (some bs) n).1 ≠ NO_ERR →
        ∃ q, (trdp_pdPut allocOk none (some p) (some bs) n).2 = some q
          ∧ q.privFlags.invalidData = p.privFlags.invalidData
          ∧ q.updPkts = p.updPkts
          ∧ (p.dataSize ≠ 0 → q = p)
          ∧ (p.dataSize = 0 → q.dataSize = n ∧ q.grossSize = trdp_packetSizePD n))
    ∧ (p.dataSize = 0 ∧ allocOk ∧ n > TRDP_MAX_PD_DATA_SIZE →
        ∃ q, (trdp_pdPut allocOk none (some p) (some bs) n).2 = some q
          ∧ q.frame.frameHead.datasetLength = n)
    ∧ (p.dataSize = 0 ∧ ¬allocOk →
        ∃ q, (trdp_pdPut allocOk none (some p) (some bs) n).2 = some q
          ∧ q.frame = p.frame) := by
  by_cases hz : p.dataSize = 0
  · by_cases ha : allocOk
    · by_cases ho : n > TRDP_MAX_PD_DATA_SIZE
      · refine ⟨?_, by simp [trdp_pdPut], ?_, ?_, ?_⟩ <;>
          simp [trdp_pdPut, hz, ha, hn, ho]
      · refine ⟨?_, by simp [trdp_pdPut], ?_, ?_, ?_⟩ <;>
          simp [trdp_pdPut, hz, ha, hn, ho]
    · refine ⟨?_, by simp [trdp_pdPut], ?_, ?_, ?_⟩ <;>
        simp [trdp_pdPut, hz, ha, hn]
  · by_cases ho : n > TRDP_MAX_PD_DATA_SIZE
    · refine ⟨?_, by simp [trdp_pdPut], ?_, ?_, ?_⟩ <;>
        simp [trdp_pdPut, hz, hn, ho]
    · refine ⟨?_, by simp [trdp_pdPut], ?_, ?_, ?_⟩ <;>
        simp [trdp_pdPut, hz, hn, ho]

/-- Witness for `c6_put_error_classification` at `allocOk = true`,
`p = ele0`, `n = 1433`. -/
theorem c6_put_error_classification_witness :
    (1433 : Nat) ≠ 0
    ∧ (trdp_pdPut true none (some ele0) (some []) 1433).1
        = if ele0.dataSize = 0 ∧ ¬true then MEM_ERR
          else if 1433 > TRDP_MAX_PD_DATA_SIZE then PARAM_ERR else NO_ERR :=
  ⟨by decide, (c6_put_error_classification true ele0 [] 1433 (by decide)).1⟩

/-- **C9** — `Put` with `pData = NULL` and `dataSize ≠ 0` (and likewise
with data supplied but `dataSize = 0` on an element whose current
`dataSize` is nonzero) returns `NoErr` and changes nothing at all. -/
theorem c9_put_silent_noop (allocOk : Bool)
    (marshall : Option (Nat → List Nat → Nat → MarshallRes))
    (p : PD_ELE_T) (bs : List Nat) (n : Nat) :
    (n ≠ 0 → trdp_pdPut allocOk marshall (some p) none n = (NO_ERR, some p))
    ∧ (p.dataSize ≠ 0 →
        trdp_pdPut allocOk marshall (some p) (some bs) 0 = (NO_ERR, some p)) := by
  constructor
  · intro hn
    simp [trdp_pdPut, hn]
  · intro hd
    simp [trdp_pdPut, hd]

/-- Witness for `c9_put_silent_noop` at a concrete element. -/
theorem c9_put_silent_noop_witness :
    (5 : Nat) ≠ 0
    ∧ trdp_pdPut true none (some ele0) none 5 = (NO_ERR, some ele0) :=
  ⟨by decide, (c9_put_silent_noop true none ele0 [] 5).1 (by decide)⟩

theorem distDeltaTmax_go_le (q : List PD_ELE_T) :
    ∀ d : Nat,
      q.foldl (fun d e => if e.interval ≠ 0 ∧ d > e.interval then e.interval else d) d
        ≤ d := by
  induction q with
  | nil => intro d; simp
  | cons e rest ih =>
    intro d
    simp only [List.foldl_cons]
    by_cases h : e.interval ≠ 0 ∧ d > e.interval
    · rw [if_pos h]
      exact le_trans (ih e.interval) (le_of_lt h.2)
    · rw [if_neg h]
      exact ih d

theorem distDeltaTmax_go_min (q : List PD_ELE_T) :
    ∀ d : Nat, ∀ e ∈ q, e.interval ≠ 0 →
      q.foldl (fun d e => if e.interval ≠ 0 ∧ d > e.interval then e.interval else d) d
        ≤ e.interval := by
  induction q with
  | nil => intro d e he; simp at he
  | cons x rest ih =>
    intro d e he hcyc
    simp only [List.foldl_cons]
    rcases List.mem_cons.mp he with rfl | hmem
    · by_cases h : e.interval ≠ 0 ∧ d > e.interval
      · rw [if_pos h]
        exact distDeltaTmax_go_le rest e.interval
      · have : d ≤ e.interval := by
          rcases not_and_or.mp h with hc | hlt
          · exact absurd hcyc hc
          · omega
        rw [if_neg h]
        exact le_trans (distDeltaTmax_go_le rest d) this
    · by_cases h : x.interval ≠ 0 ∧ d > x.interval
      · rw [if_pos h]; exact ih x.interval e hmem hcyc
      · rw [if_neg h]; exact ih d e hmem hcyc

theorem distDeltaTmax_go_attained (q : List PD_ELE_T) :
    ∀ d : Nat,
      q.foldl (fun d e => if e.interval ≠ 0 ∧ d > e.interval then e.interval else d) d
          = d
      ∨ ∃ e ∈ q, e.interval ≠ 0 ∧
          q.foldl (fun d e => if e.interval ≠ 0 ∧ d > e.interval then e.interval else d) d
            = e.interval := by
  induction q with
  | nil => intro d; left; rfl
  | cons x rest ih =>
    intro d
    simp only [List.foldl_cons]
    by_cases h : x.interval ≠ 0 ∧ d > x.interval
    · rw [if_pos h]
      rcases ih x.interval with heq | ⟨e, hmem, hc, heq⟩
      · right; exact ⟨x, List.mem_cons_self x rest, h.1, heq⟩
      · right; exact ⟨e, List.mem_cons_of_mem x hmem, hc, heq⟩
    · rw [if_neg h]
      rcases ih d with heq | ⟨e, hmem, hc, heq⟩
      · left; exact heq
      · right; exact ⟨e, List.mem_cons_of_mem x hmem, hc, heq⟩

theorem distDeltaTmax_go_pos (q : List PD_ELE_T) :
    ∀ d : Nat, 0 < d →
      0 < q.foldl (fun d e => if e.interval ≠ 0 ∧ d > e.interval then e.interval else d) d := by
  induction q with
  | nil => intro d hd; simpa using hd
  | cons x rest ih =>
    intro d hd
    simp only [List.foldl_cons]
    by_cases h : x.interval ≠ 0 ∧ d > x.interval
    · rw [if_pos h]
      exact ih x.interval (Nat.pos_of_ne_zero h.1)
    · rw [if_neg h]
      exact ih d hd

theorem distTNull_go_max (q : List PD_ELE_T) :
    ∀ t : Nat, ∀ e ∈ q, e.interval ≠ 0 →
      e.timeToGo ≤
        q.foldl (fun t e => if e.interval ≠ 0 ∧ t < e.timeToGo then e.timeToGo else t) t := by
  induction q with
  | nil => intro t e he; simp at he
  | cons x rest ih =>
    intro t e he hcyc
    have hmono : ∀ t : Nat, t ≤
        rest.foldl (fun t e => if e.interval ≠ 0 ∧ t < e.timeToGo then e.timeToGo else t) t := by
      clear ih he hcyc
      induction rest with
      | nil => intro t; simp
      | cons y r ihr =>
        intro t
        simp only [List.foldl_cons]
        by_cases h : y.interval ≠ 0 ∧ t < y.timeToGo
        · rw [if_pos h]
          exact le_trans (le_of_lt h.2) (ihr y.timeToGo)
        · rw [if_neg h]; exact ihr t
    simp only [List.foldl_cons]
    rcases List.mem_cons.mp he with rfl | hmem
    · by_cases h : e.interval ≠ 0 ∧ t < e.timeToGo
      · rw [if_pos h]; exact hmono e.timeToGo
      · have : e.timeToGo ≤ t := by
          rcases not_and_or.mp h with hc | hlt
          · exact absurd hcyc hc
          · omega
        rw [if_neg h]
        exact le_trans this (hmono t)
    · by_cases h : x.interval ≠ 0 ∧ t < x.timeToGo
      · rw [if_pos h]; exact ih x.timeToGo e hmem hcyc
      · rw [if_neg h]; exact ih t e hmem hcyc

theorem distTNull_go_attained (q : List PD_ELE_T) :
    ∀ t : Nat,
      q.foldl (fun t e => if e.interval ≠ 0 ∧ t < e.timeToGo then e.timeToGo else t) t = t
      ∨ ∃ e ∈ q, e.interval ≠ 0 ∧
          q.foldl (fun t e => if e.interval ≠ 0 ∧ t < e.timeToGo then e.timeToGo else t) t
            = e.timeToGo := by
  induction q with
  | nil => intro t; left; rfl
  | cons x rest ih =>
    intro t
    simp only [List.foldl_cons]
    by_cases h : x.interval ≠ 0 ∧ t < x.timeToGo
    · rw [if_pos h]
      rcases ih x.timeToGo with heq | ⟨e, hmem, hc, heq⟩
      · right; exact ⟨x, List.mem_cons_self x rest, h.1, heq⟩
      · right; exact ⟨e, List.mem_cons_of_mem x hmem, hc, heq⟩
    · rw [if_neg h]
      rcases ih t with heq | ⟨e, hmem, hc, heq⟩
      · left; exact heq
      · right; exact ⟨e, List.mem_cons_of_mem x hmem, hc, heq⟩

theorem distAssign_length (slot tNull n : Nat) :
    ∀ (xs : List PD_ELE_T) (i : Nat), (distAssign slot tNull n i xs).length = xs.length := by
  intro xs
  induction xs with
  | nil => intro i; rfl
  | cons e rest ih =>
    intro i
    unfold distAssign
    by_cases h1 : i < n
    · by_cases h2 : e.interval ≠ 0
      · simp [h1, h2, ih]
      · simp [h1, h2, ih]
    · simp [h1]

theorem distAssign_getElem (slot tNull n : Nat) :
    ∀ (xs : List PD_ELE_T) (i j : Nat), i + cyclicCount xs ≤ n →
      ∀ hj : j < xs.length,
      (distAssign slot tNull n i xs)[j]? =
        some (if xs[j].interval = 0 then xs[j]
              else if 2 * (slot * (i + cyclicCount (xs.take j))) > xs[j].interval then xs[j]
              else { xs[j] with timeToGo := tNull + slot * (i + cyclicCount (xs.take j)) }) := by
  intro xs
  induction xs with
  | nil => intro i j _ hj; simp at hj
  | cons e rest ih =>
    intro i j hcnt hj
    have hcnt' : cyclicCount (e :: rest)
        = (if e.interval != 0 then 1 else 0) + cyclicCount rest := by
      simp [cyclicCount, List.countP_cons]
      by_cases h : e.interval = 0 <;> simp [h] <;> omega
    by_cases hcyc : e.interval = 0
    · -- head is pull-only: passed through unchanged, index unchanged
      have hlt : i < n ∨ ¬(i < n) := em _
      unfold distAssign
      by_cases h1 : i < n
      · simp only [h1, if_true, hcyc, ne_eq, not_true_eq_false, if_false]
        cases j with
        | zero => simp [hcyc]
        | succ k =>
          have hk : k < rest.length := by simpa using hj
          have := ih i k (by simp [hcyc] at hcnt'; omega) hk
          simp only [List.getElem?_cons_succ, List.getElem_cons_succ, this,
            List.take_succ_cons]
          have : cyclicCount (e :: rest.take k) = cyclicCount (rest.take k) := by
            simp [cyclicCount, List.countP_cons, hcyc]
          rw [this]
      · -- loop exhausted: everything that remains is pull-only
        have hrest : cyclicCount (e :: rest) = 0 := by omega
        have hallnc : ∀ x ∈ e :: rest, x.interval = 0 := by
          intro x hx
          by_contra hxc
          have hx' : (fun e : PD_ELE_T => e.interval != 0) x = true := by
            simpa using hxc
          have hpos : 0 < List.countP (fun e : PD_ELE_T => e.interval != 0) (e :: rest) :=
            List.countP_pos_iff.mpr ⟨x, hx, hx'⟩
          have : 0 < cyclicCount (e :: rest) := by
            simpa [cyclicCount] using hpos
          omega
        simp only [h1, if_false]
        have hx := hallnc ((e :: rest)[j]) (List.getElem_mem hj)
        simp [hx, List.getElem?_eq_getElem hj]
    · -- head is cyclic
      have h1 : i < n := by
        simp [hcyc] at hcnt'
        omega
      unfold distAssign
      simp only [h1, if_true, hcyc, ne_eq, not_false_eq_true, if_true]
      cases j with
      | zero =>
        simp [hcyc, cyclicCount]
      | succ k =>
        have hk : k < rest.length := by simpa using hj
        have := ih (i + 1) k (by simp [hcyc] at hcnt'; omega) hk
        simp only [List.getElem?_cons_succ, List.getElem_cons_succ, this,
          List.take_succ_cons]
        have hcc : cyclicCount (e :: rest.take k) = 1 + cyclicCount (rest.take k) := by
          simp [cyclicCount, List.countP_cons, hcyc]
          omega
        rw [hcc]
        have : i + 1 + cyclicCount (List.take k rest)
            = i + (1 + cyclicCount (List.take k rest)) := by omega
        rw [this]

theorem distAssign_exhausted (slot tNull n : Nat) (xs : List PD_ELE_T) (i : Nat)
    (h : ¬ i < n) : distAssign slot tNull n i xs = xs := by
  cases xs with
  | nil => rfl
  | cons e rest => unfold distAssign; rw [if_neg h]

theorem distAssign_id_single (slot t0 : Nat) :
    ∀ xs : List PD_ELE_T, cyclicCount xs ≤ 1 →
      (∀ e ∈ xs, e.interval ≠ 0 → e.timeToGo = t0) →
      distAssign slot t0 1 0 xs = xs := by
  intro xs
  induction xs with
  | nil => intro _ _; rfl
  | cons e rest ih =>
    intro hle ht
    unfold distAssign
    rw [if_pos (by omega : (0 : Nat) < 1)]
    by_cases hc : e.interval = 0
    · rw [if_neg (by simpa using hc)]
      have hcnt : cyclicCount rest ≤ 1 := by
        have : cyclicCount (e :: rest) = cyclicCount rest := by
          simp [cyclicCount, List.countP_cons, hc]
        omega
      rw [ih hcnt (fun x hx => ht x (List.mem_cons_of_mem e hx))]
    · rw [if_pos (by simpa using hc)]
      have h0 : ¬ 2 * (slot * 0) > e.interval := by omega
      rw [if_neg h0]
      have hT : e.timeToGo = t0 := ht e (List.mem_cons_self e rest) hc
      have hEta : ({ e with timeToGo := t0 + slot * 0 } : PD_ELE_T) = e := by
        rw [Nat.mul_zero, Nat.add_zero, ← hT]
      rw [hEta, distAssign_exhausted slot t0 1 rest 1 (by omega)]

theorem single_cyclic_timeToGo (q : List PD_ELE_T) (h1 : cyclicCount q = 1) :
    ∀ e ∈ q, e.interval ≠ 0 → e.timeToGo = distTNull q := by
  intro e he hc
  have hle : e.timeToGo ≤ distTNull q := distTNull_go_max q 0 e he hc
  rcases distTNull_go_attained q 0 with h0 | ⟨e', he', hc', heq⟩
  · have hT : distTNull q = 0 := h0
    omega
  · have hT : distTNull q = e'.timeToGo := heq
    have hfl : (q.filter (fun x => x.interval != 0)).length = 1 := by
      simpa [cyclicCount, List.countP_eq_length_filter] using h1
    obtain ⟨z, hz⟩ := List.length_eq_one.mp hfl
    have hez : e = z := by
      have hmem : e ∈ q.filter (fun x => x.interval != 0) := by
        simp [List.mem_filter, he, hc]
      rw [hz] at hmem
      simpa using hmem
    have hez' : e' = z := by
      have hmem : e' ∈ q.filter (fun x => x.interval != 0) := by
        simp [List.mem_filter, he', hc']
      rw [hz] at hmem
      simpa using hmem
    rw [hT, hez, hez']

/-- **C8 counterexample** — the claim computes `slot` from the smallest
cyclic interval, but the C code presets `deltaTmax` to 1000 s, so with two
cyclic publishers of interval 2000 s the smallest interval is 2000 s
(slot would be 1000 s and element 1 would get `tNull + 1000 s`), while the
code assigns `tNull + 500 s` (slot = 1000 s preset / 2). -/
theorem c8_distribute_preset_counterexample :
    cyclicCount [eleC8, eleC8] = 2
    ∧ eleC8.interval = 2000000000
    ∧ distTNull [eleC8, eleC8] = 0
    ∧ ¬(2 * ((2000000000 / 2) * 1) > eleC8.interval)
    ∧ (trdp_pdDistribute [eleC8, eleC8]).2.map PD_ELE_T.timeToGo = [0, 500000000]
    ∧ (500000000 : Nat) ≠ 0 + (2000000000 / 2) * 1 := by
  decide

/-- **C8 (amended)** — `Distribute` assigns cyclic element number `i`
(counting only cyclic elements in queue order) the send time
`tNull + i×slot`, where `slot = deltaTmax / noOfPackets`, `tNull` is the
largest `timeToGo` among cyclic elements, and `deltaTmax` is the smallest
cyclic interval **capped at the 1000 s preset**; an element with
`2×slot×i > interval` keeps its `timeToGo`, pull-only elements are never
modified, and a nonempty queue with fewer than two cyclic packets is left
unmodified with a success return. -/
theorem c8_distribute_shaping :
    (∀ q : List PD_ELE_T, 2 ≤ cyclicCount q →
      (trdp_pdDistribute q).1 = NO_ERR
      ∧ (trdp_pdDistribute q).2.length = q.length
      ∧ (∀ j, ∀ hj : j < q.length,
          (trdp_pdDistribute q).2[j]? =
            some (if q[j].interval = 0 then q[j]
                  else if 2 * ((distDeltaTmax q / cyclicCount q) * cyclicCount (q.take j))
                          > q[j].interval then q[j]
                  else { q[j] with timeToGo :=
                          distTNull q
                            + (distDeltaTmax q / cyclicCount q) * cyclicCount (q.take j) }))
      ∧ (∀ e ∈ q, e.interval ≠ 0 → distDeltaTmax q ≤ e.interval)
      ∧ distDeltaTmax q ≤ DELTA_T_PRESET
      ∧ (distDeltaTmax q = DELTA_T_PRESET
          ∨ ∃ e ∈ q, e.interval ≠ 0 ∧ distDeltaTmax q = e.interval)
      ∧ (∀ e ∈ q, e.interval ≠ 0 → e.timeToGo ≤ distTNull q)
      ∧ (distTNull q = 0 ∨ ∃ e ∈ q, e.interval ≠ 0 ∧ distTNull q = e.timeToGo))
    ∧ (∀ q : List PD_ELE_T, q ≠ [] → cyclicCount q ≤ 1 →
        trdp_pdDistribute q = (NO_ERR, q)) := by
  constructor
  · intro q h2
    have hn0 : cyclicCount q ≠ 0 := by omega
    have hdpos : 0 < distDeltaTmax q :=
      distDeltaTmax_go_pos q DELTA_T_PRESET (by norm_num [DELTA_T_PRESET])
    have hlen : 2 ≤ q.length := by
      have hcl := List.countP_le_length (fun e : PD_ELE_T => e.interval != 0) (l := q)
      have : cyclicCount q ≤ q.length := hcl
      omega
    obtain ⟨e1, t1, rfl⟩ : ∃ e1 t1, q = e1 :: t1 := by
      cases q with
      | nil => simp at hlen
      | cons a t => exact ⟨a, t, rfl⟩
    obtain ⟨e2, t2, rfl⟩ : ∃ e2 t2, t1 = e2 :: t2 := by
      cases t1 with
      | nil => simp at hlen
      | cons a t => exact ⟨a, t, rfl⟩
    have hred : trdp_pdDistribute (e1 :: e2 :: t2)
        = (NO_ERR,
            distAssign
              (distDeltaTmax (e1 :: e2 :: t2) / cyclicCount (e1 :: e2 :: t2))
              (distTNull (e1 :: e2 :: t2)) (cyclicCount (e1 :: e2 :: t2)) 0
              (e1 :: e2 :: t2)) := by
      show (if distDeltaTmax (e1 :: e2 :: t2) = 0 ∨ cyclicCount (e1 :: e2 :: t2) = 0
          then (NO_ERR, e1 :: e2 :: t2)
          else (NO_ERR,
            distAssign (distDeltaTmax (e1 :: e2 :: t2) / cyclicCount (e1 :: e2 :: t2))
              (distTNull (e1 :: e2 :: t2)) (cyclicCount (e1 :: e2 :: t2)) 0
              (e1 :: e2 :: t2))) = _
      rw [if_neg (by push_neg; exact ⟨by omega, hn0⟩)]
    refine ⟨by rw [hred], by rw [hred]; exact distAssign_length _ _ _ _ _, ?_,
      fun e he hc => distDeltaTmax_go_min _ DELTA_T_PRESET e he hc,
      distDeltaTmax_go_le _ DELTA_T_PRESET,
      distDeltaTmax_go_attained _ DELTA_T_PRESET,
      fun e he hc => distTNull_go_max _ 0 e he hc,
      distTNull_go_attained _ 0⟩
    intro j hj
    rw [hred]
    have hidx := distAssign_getElem
      (distDeltaTmax (e1 :: e2 :: t2) / cyclicCount (e1 :: e2 :: t2))
      (distTNull (e1 :: e2 :: t2)) (cyclicCount (e1 :: e2 :: t2))
      (e1 :: e2 :: t2) 0 j (by omega) hj
    simpa only [Nat.zero_add] using hidx
  · intro q hne hle
    cases q with
    | nil => exact absurd rfl hne
    | cons e1 t =>
      cases t with
      | nil => rfl
      | cons e2 t2 =>
        show (if distDeltaTmax (e1 :: e2 :: t2) = 0 ∨ cyclicCount (e1 :: e2 :: t2) = 0
            then (NO_ERR, e1 :: e2 :: t2)
            else (NO_ERR,
              distAssign (distDeltaTmax (e1 :: e2 :: t2) / cyclicCount (e1 :: e2 :: t2))
                (distTNull (e1 :: e2 :: t2)) (cyclicCount (e1 :: e2 :: t2)) 0
                (e1 :: e2 :: t2))) = _
        by_cases hn : cyclicCount (e1 :: e2 :: t2) = 0
        · rw [if_pos (Or.inr hn)]
        · have hn1 : cyclicCount (e1 :: e2 :: t2) = 1 := by omega
          have hdpos : 0 < distDeltaTmax (e1 :: e2 :: t2) :=
            distDeltaTmax_go_pos _ DELTA_T_PRESET (by norm_num [DELTA_T_PRESET])
          rw [if_neg (by push_neg; exact ⟨by omega, hn⟩), hn1,
            distAssign_id_single _ _ _ (by omega)
              (single_cyclic_timeToGo _ hn1)]

/-- Witness for `c8_distribute_shaping`: two cyclic publishers with
intervals 100 ms and 200 ms. -/
theorem c8_distribute_shaping_witness :
    2 ≤ cyclicCount [{ ele0 with interval := 100000 }, { ele0 with interval := 200000 }]
    ∧ (trdp_pdDistribute
        [{ ele0 with interval := 100000 }, { ele0 with interval := 200000 }]).1 = NO_ERR :=
  ⟨by decide,
    (c8_distribute_shaping.1
      [{ ele0 with interval := 100000 }, { ele0 with interval := 200000 }]
      (by decide)).1⟩

theorem isDue_iff (now : Nat) (e : PD_ELE_T) :
    isDue now e = true ↔ (e.interval ≠ 0 ∧ e.timeToGo ≤ now) ∨ e.privFlags.req2bSent := by
  simp [isDue]

theorem pullSwap_proj (e : PD_ELE_T) :
    (pullSwap e).privFlags = e.privFlags
    ∧ (pullSwap e).interval = e.interval
    ∧ (pullSwap e).timeToGo = e.timeToGo
    ∧ (pullSwap e).socketIdx = e.socketIdx
    ∧ (pullSwap e).addr = e.addr
    ∧ (pullSwap e).pullIpAddress = e.pullIpAddress
    ∧ (pullSwap e).hasCb = e.hasCb
    ∧ (pullSwap e).frame.frameHead.msgType
        = (if e.privFlags.req2bSent ∧ e.frame.frameHead.msgType = TRDP_MSG_PD
           then TRDP_MSG_PP else e.frame.frameHead.msgType)
    ∧ (pullSwap e).frame.frameHead.etbTopoCnt = e.frame.frameHead.etbTopoCnt
    ∧ (pullSwap e).frame.frameHead.opTrnTopoCnt = e.frame.frameHead.opTrnTopoCnt := by
  unfold pullSwap
  split <;> simp_all

theorem trdp_pdUpdate_proj (crc32 : PD_HEADER_T → Nat) (e : PD_ELE_T) :
    (trdp_pdUpdate crc32 e).privFlags = e.privFlags
    ∧ (trdp_pdUpdate crc32 e).interval = e.interval
    ∧ (trdp_pdUpdate crc32 e).timeToGo = e.timeToGo
    ∧ (trdp_pdUpdate crc32 e).socketIdx = e.socketIdx
    ∧ (trdp_pdUpdate crc32 e).addr = e.addr
    ∧ (trdp_pdUpdate crc32 e).pullIpAddress = e.pullIpAddress
    ∧ (trdp_pdUpdate crc32 e).hasCb = e.hasCb
    ∧ (trdp_pdUpdate crc32 e).frame.frameHead.msgType = e.frame.frameHead.msgType
    ∧ (trdp_pdUpdate crc32 e).frame.frameHead.etbTopoCnt = e.frame.frameHead.etbTopoCnt
    ∧ (trdp_pdUpdate crc32 e).frame.frameHead.opTrnTopoCnt
        = e.frame.frameHead.opTrnTopoCnt := by
  unfold trdp_pdUpdate
  split <;> simp

theorem trdp_pdSend_proj (udpOk : Int → Nat → Bool) (e : PD_ELE_T) :
    (trdp_pdSend udpOk e).2.1.privFlags = e.privFlags
    ∧ (trdp_pdSend udpOk e).2.1.interval = e.interval
    ∧ (trdp_pdSend udpOk e).2.1.timeToGo = e.timeToGo
    ∧ (trdp_pdSend udpOk e).2.1.socketIdx = e.socketIdx
    ∧ (trdp_pdSend udpOk e).2.1.addr = e.addr
    ∧ (trdp_pdSend udpOk e).2.1.frame = e.frame
    ∧ (trdp_pdSend udpOk e).2.1.numRxTx = e.numRxTx := by
  unfold trdp_pdSend
  split
  · split <;> simp
  · split <;> simp

theorem sendBody_proj (udpOk : Int → Nat → Bool) (sessionEtb sessionOp : Nat)
    (errIn : TRDP_ERR_T) (eB : PD_ELE_T) :
    (sendBody udpOk sessionEtb sessionOp errIn eB).1.privFlags = eB.privFlags
    ∧ (sendBody udpOk sessionEtb sessionOp errIn eB).1.interval = eB.interval
    ∧ (sendBody udpOk sessionEtb sessionOp errIn eB).1.timeToGo = eB.timeToGo
    ∧ (sendBody udpOk sessionEtb sessionOp errIn eB).1.socketIdx = eB.socketIdx
    ∧ (sendBody udpOk sessionEtb sessionOp errIn eB).1.addr = eB.addr
    ∧ (sendBody udpOk sessionEtb sessionOp errIn eB).1.frame.frameHead.msgType
        = eB.frame.frameHead.msgType := by
  have hs := trdp_pdSend_proj udpOk eB
  unfold sendBody
  split
  · simp
  · split
    · simp
    · split
      · simp
      · split <;> simp_all

theorem sendAttempt_preserves (crc32 : PD_HEADER_T → Nat)
    (udpOk : Int → Nat → Bool) (sessionEtb sessionOp : Nat)
    (errIn : TRDP_ERR_T) (e : PD_ELE_T) :
    (sendAttempt crc32 udpOk sessionEtb sessionOp errIn e).1.privFlags = e.privFlags
    ∧ (sendAttempt crc32 udpOk sessionEtb sessionOp errIn e).1.interval = e.interval
    ∧ (sendAttempt crc32 udpOk sessionEtb sessionOp errIn e).1.timeToGo = e.timeToGo
    ∧ (sendAttempt crc32 udpOk sessionEtb sessionOp errIn e).1.socketIdx = e.socketIdx
    ∧ (sendAttempt crc32 udpOk sessionEtb sessionOp errIn e).1.addr = e.addr
    ∧ (sendAttempt crc32 udpOk sessionEtb sessionOp errIn e).1.frame.frameHead.msgType
        = (if e.privFlags.invalidData = false ∧ e.privFlags.req2bSent
              ∧ e.frame.frameHead.msgType = TRDP_MSG_PD
           then TRDP_MSG_PP else e.frame.frameHead.msgType) := by
  by_cases hInv : e.privFlags.invalidData
  · simp [sendAttempt, hInv]
  · have hP := pullSwap_proj e
    have hU := trdp_pdUpdate_proj crc32 (pullSwap e)
    have hB := sendBody_proj udpOk sessionEtb sessionOp errIn
      (trdp_pdUpdate crc32 (pullSwap e))
    unfold sendAttempt
    rw [if_neg hInv]
    obtain ⟨hP1, hP2, hP3, hP4, hP5, _, _, hP8, _, _⟩ := hP
    obtain ⟨hU1, hU2, hU3, hU4, hU5, _, _, hU8, _, _⟩ := hU
    obtain ⟨hB1, hB2, hB3, hB4, hB5, hB6⟩ := hB
    refine ⟨?_, ?_, ?_, ?_, ?_, ?_⟩
    · rw [hB1, hU1, hP1]
    · rw [hB2, hU2, hP2]
    · rw [hB3, hU3, hP3]
    · rw [hB4, hU4, hP4]
    · rw [hB5, hU5, hP5]
    · rw [hB6, hU8, hP8]
      simp [hInv]

theorem sendBody_elem_errIn (udpOk : Int → Nat → Bool)
    (sessionEtb sessionOp : Nat) (errIn errIn' : TRDP_ERR_T) (eB : PD_ELE_T) :
    (sendBody udpOk sessionEtb sessionOp errIn eB).1
      = (sendBody udpOk sessionEtb sessionOp errIn' eB).1 := by
  unfold sendBody
  split
  · rfl
  · split
    · rfl
    · split
      · rfl
      · split <;> rfl

theorem sendAttempt_elem_errIn (crc32 : PD_HEADER_T → Nat)
    (udpOk : Int → Nat → Bool) (sessionEtb sessionOp : Nat)
    (errIn errIn' : TRDP_ERR_T) (e : PD_ELE_T) :
    (sendAttempt crc32 udpOk sessionEtb sessionOp errIn e).1
      = (sendAttempt crc32 udpOk sessionEtb sessionOp errIn' e).1 := by
  unfold sendAttempt
  split
  · rfl
  · exact sendBody_elem_errIn udpOk sessionEtb sessionOp errIn errIn' _

theorem sendOne_kept_errIn (crc32 : PD_HEADER_T → Nat)
    (udpOk : Int → Nat → Bool) (now sessionEtb sessionOp : Nat)
    (errIn errIn' : TRDP_ERR_T) (e : PD_ELE_T) :
    (sendOne crc32 udpOk now sessionEtb sessionOp errIn e).kept
      = (sendOne crc32 udpOk now sessionEtb sessionOp errIn' e).kept := by
  simp only [sendOne]
  rw [sendAttempt_elem_errIn crc32 udpOk sessionEtb sessionOp errIn errIn' e]
  split
  · simp only [apply_ite SendAcc.kept]
  · rfl

/-- **C7** — for a due cyclic publisher that is not a pull-reply emission
(no `REQ_2B_SENT`, not a one-shot PR element), the loop body advances the
timer by exactly one interval, snapping to `now + interval` when the
element was more than one interval late; the resulting `timeToGo` is
strictly in the future, so the element cannot be due again within the
same pass. -/
theorem c7_cyclic_timer_advance (crc32 : PD_HEADER_T → Nat)
    (udpOk : Int → Nat → Bool) (now sessionEtb sessionOp : Nat)
    (errIn : TRDP_ERR_T) (e : PD_ELE_T)
    (hcyc : e.interval ≠ 0) (hdue : e.timeToGo ≤ now)
    (hnoreq : e.privFlags.req2bSent = false)
    (hnotPr : e.frame.frameHead.msgType ≠ TRDP_MSG_PR) :
    ∃ e', (sendOne crc32 udpOk now sessionEtb sessionOp errIn e).kept = some e'
      ∧ e'.timeToGo = (if e.timeToGo + e.interval ≤ now then now + e.interval
                       else e.timeToGo + e.interval)
      ∧ now < e'.timeToGo
      ∧ e'.interval = e.interval := by
  obtain ⟨h1, h2, h3, h4, h5, h6⟩ :=
    sendAttempt_preserves crc32 udpOk sessionEtb sessionOp errIn e
  have h6' : (sendAttempt crc32 udpOk sessionEtb sessionOp errIn e).1.frame.frameHead.msgType
      = e.frame.frameHead.msgType := by
    rw [h6, if_neg]
    simp [hnoreq]
  simp only [sendOne]
  rw [if_pos (Or.inl ⟨hcyc, hdue⟩)]
  obtain ⟨r, hr⟩ : ∃ r, sendAttempt crc32 udpOk sessionEtb sessionOp errIn e = r :=
    ⟨_, rfl⟩
  rw [hr] at h1 h2 h3 h4 h5 h6'
  rw [hr]
  rw [if_neg (show ¬(r.1.privFlags.req2bSent = true
      ∧ r.1.frame.frameHead.msgType = TRDP_MSG_PP) by simp [h1, hnoreq])]
  rw [if_pos (show r.1.interval ≠ 0 by rw [h2]; exact hcyc)]
  by_cases c3 : r.1.timeToGo + r.1.interval ≤ now
  · have c3' : e.timeToGo + e.interval ≤ now := by rwa [h2, h3] at c3
    rw [if_pos c3]
    split
    · rename_i hPR
      exact absurd (by simpa [h6'] using hPR) hnotPr
    · refine ⟨_, rfl, ?_, ?_, ?_⟩
      · simp [c3', h2]
      · have : 0 < e.interval := Nat.pos_of_ne_zero hcyc
        simp [h2]
        omega
      · simp [h2]
  · have c3' : ¬ e.timeToGo + e.interval ≤ now := by rwa [h2, h3] at c3
    rw [if_neg c3]
    split
    · rename_i hPR
      exact absurd (by simpa [h6'] using hPR) hnotPr
    · refine ⟨_, rfl, ?_, ?_, ?_⟩
      · simp [c3', h2, h3]
      · simp [h2, h3]
        omega
      · simp [h2]

/-- Witness for `c7_cyclic_timer_advance`: a cyclic publisher with
interval 100 ms, due at `now = 250000`. -/
theorem c7_cyclic_timer_advance_witness :
    ({ ele0 with interval := 100000, timeToGo := 200000 } : PD_ELE_T).interval ≠ 0
    ∧ ({ ele0 with interval := 100000, timeToGo := 200000 } : PD_ELE_T).timeToGo ≤ 250000
    ∧ ∃ e', (sendOne (fun _ => 0) (fun _ _ => true) 250000 0 0 NO_ERR
          { ele0 with interval := 100000, timeToGo := 200000 }).kept = some e'
        ∧ e'.timeToGo = (if 200000 + 100000 ≤ 250000 then 250000 + 100000
                         else 200000 + 100000)
        ∧ 250000 < e'.timeToGo
        ∧ e'.interval = 100000 :=
  ⟨by decide, by decide,
    c7_cyclic_timer_advance (fun _ => 0) (fun _ _ => true) 250000 0 0 NO_ERR
      { ele0 with interval := 100000, timeToGo := 200000 }
      (by decide) (by decide) (by decide) (by decide)⟩

/-- A due one-shot PR element is always removed by the loop body: its
socket reference is released, the freed element has its magic sentinel
zeroed, and it does not stay in the queue — regardless of
`INVALID_DATA`, the topology check, redundancy, or the send outcome. -/
theorem sendOne_duePR (crc32 : PD_HEADER_T → Nat) (udpOk : Int → Nat → Bool)
    (now sessionEtb sessionOp : Nat) (errIn : TRDP_ERR_T) (e : PD_ELE_T)
    (hd : isDue now e = true)
    (hpr : e.frame.frameHead.msgType = TRDP_MSG_PR) :
    (sendOne crc32 udpOk now sessionEtb sessionOp errIn e).kept = none
    ∧ PD_EVENT_T.sockRelease e.socketIdx
        ∈ (sendOne crc32 udpOk now sessionEtb sessionOp errIn e).events
    ∧ ∃ er, PD_EVENT_T.removedEle er
          ∈ (sendOne crc32 udpOk now sessionEtb sessionOp errIn e).events
        ∧ er.magic = 0 := by
  obtain ⟨h1, h2, h3, h4, h5, h6⟩ :=
    sendAttempt_preserves crc32 udpOk sessionEtb sessionOp errIn e
  have h6' : (sendAttempt crc32 udpOk sessionEtb sessionOp errIn e).1.frame.frameHead.msgType
      = TRDP_MSG_PR := by
    rw [h6, if_neg, hpr]
    rw [hpr]
    intro hcon
    exact absurd hcon.2.2 (by decide)
  simp only [sendOne]
  rw [if_pos ((isDue_iff now e).mp hd)]
  obtain ⟨r, hr⟩ : ∃ r, sendAttempt crc32 udpOk sessionEtb sessionOp errIn e = r :=
    ⟨_, rfl⟩
  rw [hr] at h1 h2 h3 h4 h5 h6'
  rw [hr]
  rw [if_neg (show ¬(r.1.privFlags.req2bSent = true
      ∧ r.1.frame.frameHead.msgType = TRDP_MSG_PP) by
    rw [h6']
    intro hcon
    exact absurd hcon.2 (by decide))]
  by_cases c2 : r.1.interval ≠ 0
  · rw [if_pos c2]
    by_cases c3 : r.1.timeToGo + r.1.interval ≤ now
    · rw [if_pos c3]
      split
      · refine ⟨rfl, by simp [h4], ?_⟩
        exact ⟨_, List.mem_append_right _
          (List.mem_cons_of_mem _ (List.mem_cons_self _ _)), rfl⟩
      · rename_i hPR
        exact absurd (by simpa using h6') hPR
    · rw [if_neg c3]
      split
      · refine ⟨rfl, by simp [h4], ?_⟩
        exact ⟨_, List.mem_append_right _
          (List.mem_cons_of_mem _ (List.mem_cons_self _ _)), rfl⟩
      · rename_i hPR
        exact absurd (by simpa using h6') hPR
  · rw [if_neg c2]
    split
    · refine ⟨rfl, by simp [h4], ?_⟩
      exact ⟨_, List.mem_append_right _
        (List.mem_cons_of_mem _ (List.mem_cons_self _ _)), rfl⟩
    · rename_i hPR
      exact absurd (by simpa using h6') hPR

/-- **C10** — every send-queue element with msgType PR that is due in a
pass (`REQ_2B_SENT`, or cyclic with `timeToGo ≤ now`) is removed by the
pass: its socket reference is released, the freed element's magic is
zeroed, and it is not kept — regardless of whether a frame was actually
emitted; and every element surviving a pass descends from a queue element
that was not a due PR element, so after the pass no due PR element
remains in the queue. -/
theorem c10_due_pr_removed (crc32 : PD_HEADER_T → Nat) (udpOk : Int → Nat → Bool)
    (now sessionEtb sessionOp : Nat) :
    (∀ (errIn : TRDP_ERR_T) (e : PD_ELE_T), isDue now e = true →
      e.frame.frameHead.msgType = TRDP_MSG_PR →
      (sendOne crc32 udpOk now sessionEtb sessionOp errIn e).kept = none
      ∧ PD_EVENT_T.sockRelease e.socketIdx
          ∈ (sendOne crc32 udpOk now sessionEtb sessionOp errIn e).events
      ∧ ∃ er, PD_EVENT_T.removedEle er
            ∈ (sendOne crc32 udpOk now sessionEtb sessionOp errIn e).events
          ∧ er.magic = 0)
    ∧ (∀ (q : List PD_ELE_T) (errIn : TRDP_ERR_T) (e' : PD_ELE_T),
        e' ∈ (sendQueuedGo crc32 udpOk now sessionEtb sessionOp q errIn).1 →
        ∃ e ∈ q, (sendOne crc32 udpOk now sessionEtb sessionOp NO_ERR e).kept = some e'
          ∧ ¬(isDue now e = true ∧ e.frame.frameHead.msgType = TRDP_MSG_PR)) := by
  constructor
  · intro errIn e hd hpr
    exact sendOne_duePR crc32 udpOk now sessionEtb sessionOp errIn e hd hpr
  · intro q
    induction q with
    | nil =>
      intro errIn e' hmem
      simp [sendQueuedGo] at hmem
    | cons e rest ih =>
      intro errIn e' hmem
      simp only [sendQueuedGo] at hmem
      rcases hk : (sendOne crc32 udpOk now sessionEtb sessionOp errIn e).kept
        with _ | ek
      · rw [hk] at hmem
        obtain ⟨e0, he0, hkept, hnot⟩ := ih _ e' hmem
        exact ⟨e0, List.mem_cons_of_mem e he0, hkept, hnot⟩
      · rw [hk] at hmem
        rcases List.mem_cons.mp hmem with rfl | hmem'
        · refine ⟨e, List.mem_cons_self e rest, ?_, ?_⟩
          · rw [sendOne_kept_errIn crc32 udpOk now sessionEtb sessionOp NO_ERR errIn e,
              hk]
          · rintro ⟨hd, hpr⟩
            have := (sendOne_duePR crc32 udpOk now sessionEtb sessionOp errIn e
              hd hpr).1
            rw [this] at hk
            exact Option.noConfusion hk
        · obtain ⟨e0, he0, hkept, hnot⟩ := ih _ e' hmem'
          exact ⟨e0, List.mem_cons_of_mem e he0, hkept, hnot⟩

/-- Witness for `c10_due_pr_removed`: a requested PR element. -/
theorem c10_due_pr_removed_witness :
    isDue 0 eleC10 = true
    ∧ (sendOne (fun _ => 0) (fun _ _ => true) 0 0 0 NO_ERR eleC10).kept = none :=
  ⟨by decide,
    ((c10_due_pr_removed (fun _ => 0) (fun _ _ => true) 0 0 0).1 NO_ERR eleC10
      (by decide) (by decide)).1⟩

theorem findSubAddr_split (pre post : List PD_ELE_T) (el : PD_ELE_T)
    (c srcIp destIp : Nat)
    (hpre : ∀ x ∈ pre, subMatch x c srcIp destIp = false)
    (hel : subMatch el c srcIp destIp = true) :
    trdp_queueFindSubAddr (pre ++ el :: post) c srcIp destIp = some el := by
  induction pre with
  | nil => simp [trdp_queueFindSubAddr, hel]
  | cons x rest ih =>
    have hx := hpre x (List.mem_cons_self x rest)
    simp only [List.cons_append, trdp_queueFindSubAddr, hx]
    simp only [Bool.false_eq_true, if_false]
    exact ih (fun y hy => hpre y (List.mem_cons_of_mem x hy))

theorem replaceFirstSub_split (pre post : List PD_ELE_T) (el v : PD_ELE_T)
    (c srcIp destIp : Nat)
    (hpre : ∀ x ∈ pre, subMatch x c srcIp destIp = false)
    (hel : subMatch el c srcIp destIp = true) :
    replaceFirstSub (pre ++ el :: post) c srcIp destIp v = pre ++ v :: post := by
  induction pre with
  | nil => simp [replaceFirstSub, hel]
  | cons x rest ih =>
    have hx := hpre x (List.mem_cons_self x rest)
    simp only [List.cons_append, replaceFirstSub, hx]
    simp only [Bool.false_eq_true, if_false, List.cons.injEq, true_and]
    exact ih (fun y hy => hpre y (List.mem_cons_of_mem x hy))

theorem findComId_split (pre post : List PD_ELE_T) (el : PD_ELE_T) (c : Nat)
    (hpre : ∀ x ∈ pre, x.addr.comId ≠ c)
    (hel : el.addr.comId = c) :
    trdp_queueFindComId (pre ++ el :: post) c = some el := by
  induction pre with
  | nil => simp [trdp_queueFindComId, hel]
  | cons x rest ih =>
    have hx := hpre x (List.mem_cons_self x rest)
    simp only [List.cons_append, trdp_queueFindComId, hx, if_false]
    exact ih (fun y hy => hpre y (List.mem_cons_of_mem x hy))

theorem queueUpdateComId_split (pre post : List PD_ELE_T) (el : PD_ELE_T) (c : Nat)
    (f : PD_ELE_T → PD_ELE_T)
    (hpre : ∀ x ∈ pre, x.addr.comId ≠ c)
    (hel : el.addr.comId = c) :
    queueUpdateComId (pre ++ el :: post) c f = pre ++ f el :: post := by
  induction pre with
  | nil => simp [queueUpdateComId, hel]
  | cons x rest ih =>
    have hx := hpre x (List.mem_cons_self x rest)
    simp only [List.cons_append, queueUpdateComId, hx, if_false, List.cons.injEq,
      true_and]
    exact ih (fun y hy => hpre y (List.mem_cons_of_mem x hy))

theorem rcvSeqElem_proj (el : PD_ELE_T) (hdr : PD_HEADER_T) (srcIp destIp : Nat) :
    (rcvSeqElem el hdr srcIp destIp).numMissed = el.numMissed
    ∧ (rcvSeqElem el hdr srcIp destIp).curSeqCnt = el.curSeqCnt
    ∧ (rcvSeqElem el hdr srcIp destIp).interval = el.interval
    ∧ (rcvSeqElem el hdr srcIp destIp).frame = el.frame
    ∧ (rcvSeqElem el hdr srcIp destIp).pktFlags = el.pktFlags
    ∧ (rcvSeqElem el hdr srcIp destIp).privFlags = el.privFlags
    ∧ (rcvSeqElem el hdr srcIp destIp).hasCb = el.hasCb
    ∧ (rcvSeqElem el hdr srcIp destIp).lastSrcIP = srcIp := by
  unfold rcvSeqElem trdp_resetSequenceCounter
  split <;> simp

theorem checkSeq_proj (cap : Nat) (e : PD_ELE_T) (seq srcIp msgT : Nat) :
    (trdp_checkSequenceCounter cap e seq srcIp msgT).2.numMissed = e.numMissed
    ∧ (trdp_checkSequenceCounter cap e seq srcIp msgT).2.curSeqCnt = e.curSeqCnt
    ∧ (trdp_checkSequenceCounter cap e seq srcIp msgT).2.interval = e.interval
    ∧ (trdp_checkSequenceCounter cap e seq srcIp msgT).2.frame = e.frame
    ∧ (trdp_checkSequenceCounter cap e seq srcIp msgT).2.pktFlags = e.pktFlags
    ∧ (trdp_checkSequenceCounter cap e seq srcIp msgT).2.privFlags = e.privFlags
    ∧ (trdp_checkSequenceCounter cap e seq srcIp msgT).2.hasCb = e.hasCb
    ∧ (trdp_checkSequenceCounter cap e seq srcIp msgT).2.lastSrcIP = e.lastSrcIP := by
  unfold trdp_checkSequenceCounter
  split
  · split <;> simp
  · split <;> simp

theorem rcvElemUpd_proj (seqCap srcIp destIp : Nat) (pkt : PD_PACKET_T)
    (el : PD_ELE_T) :
    (rcvElemUpd seqCap srcIp destIp pkt el).numMissed
      = gapNumMissed el.numMissed el.curSeqCnt pkt.frameHead.sequenceCounter
    ∧ (rcvElemUpd seqCap srcIp destIp pkt el).curSeqCnt
      = pkt.frameHead.sequenceCounter
    ∧ (rcvElemUpd seqCap srcIp destIp pkt el).interval = el.interval
    ∧ (rcvElemUpd seqCap srcIp destIp pkt el).frame = el.frame
    ∧ (rcvElemUpd seqCap srcIp destIp pkt el).pktFlags = el.pktFlags
    ∧ (rcvElemUpd seqCap srcIp destIp pkt el).privFlags = el.privFlags
    ∧ (rcvElemUpd seqCap srcIp destIp pkt el).hasCb = el.hasCb
    ∧ (rcvElemUpd seqCap srcIp destIp pkt el).dataSize = pkt.frameHead.datasetLength := by
  obtain ⟨hs1, hs2, hs3, hs4, hs5, hs6, hs7, hs8⟩ :=
    rcvSeqElem_proj el pkt.frameHead srcIp destIp
  obtain ⟨hc1, hc2, hc3, hc4, hc5, hc6, hc7, hc8⟩ :=
    checkSeq_proj seqCap (rcvSeqElem el pkt.frameHead srcIp destIp)
      pkt.frameHead.sequenceCounter srcIp pkt.frameHead.msgType
  unfold rcvElemUpd
  exact ⟨by simp [hc1, hs1, hc2, hs2], by simp, by simp [hc3, hs3],
    by simp [hc4, hs4], by simp [hc5, hs5], by simp [hc6, hs6],
    by simp [hc7, hs7], by simp⟩

theorem rcvElemFinal_proj (seqCap now srcIp destIp : Nat) (pkt : PD_PACKET_T)
    (el : PD_ELE_T) :
    (rcvElemFinal seqCap now srcIp destIp pkt el).numMissed
      = gapNumMissed el.numMissed el.curSeqCnt pkt.frameHead.sequenceCounter
    ∧ (rcvElemFinal seqCap now srcIp destIp pkt el).curSeqCnt
      = pkt.frameHead.sequenceCounter
    ∧ (rcvElemFinal seqCap now srcIp destIp pkt el).frame = pkt
    ∧ (rcvElemFinal seqCap now srcIp destIp pkt el).privFlags.timedOut = false
    ∧ (rcvElemFinal seqCap now srcIp destIp pkt el).privFlags.invalidData = false
    ∧ (rcvElemFinal seqCap now srcIp destIp pkt el).timeToGo = now + el.interval
    ∧ (rcvElemFinal seqCap now srcIp destIp pkt el).lastErr = NO_ERR
    ∧ (rcvElemFinal seqCap now srcIp destIp pkt el).interval = el.interval := by
  obtain ⟨hu1, hu2, hu3, hu4, hu5, hu6, hu7, hu8⟩ :=
    rcvElemUpd_proj seqCap srcIp destIp pkt el
  unfold rcvElemFinal
  exact ⟨by simp [hu1], by simp [hu2], by simp, by simp, by simp,
    by simp [hu3], by simp, by simp [hu3]⟩

/-- The accept path of the receiver's subscriber processing: with a
matching subscriber, a passing subscriber topology gate and an accepting
sequence check, the frame is swapped in and the element replaced by
`rcvElemFinal`. -/
theorem receiveSubscriber_accept
    (seqCap now srcIp destIp : Nat) (informUser1 : Bool)
    (s : TRDP_SESSION_T) (evs1 : List PD_EVENT_T)
    (pre post : List PD_ELE_T) (el : PD_ELE_T)
    (hq : s.rcvQueue = pre ++ el :: post)
    (hpre : ∀ x ∈ pre, subMatch x s.newFrame.frameHead.comId srcIp destIp = false)
    (hel : subMatch el s.newFrame.frameHead.comId srcIp destIp = true)
    (hgate : (s.newFrame.frameHead.etbTopoCnt = 0 ∧ s.newFrame.frameHead.opTrnTopoCnt = 0)
        ∨ trdp_validTopoCounters s.newFrame.frameHead.etbTopoCnt
            s.newFrame.frameHead.opTrnTopoCnt
            el.addr.etbTopoCnt el.addr.opTrnTopoCnt = true)
    (hacc : (trdp_checkSequenceCounter seqCap
        (rcvSeqElem el s.newFrame.frameHead srcIp destIp)
        s.newFrame.frameHead.sequenceCounter srcIp
        s.newFrame.frameHead.msgType).1 = 0) :
    (receiveSubscriber seqCap now srcIp destIp informUser1 s evs1).1.rcvQueue
        = pre ++ rcvElemFinal seqCap now srcIp destIp s.newFrame el :: post
    ∧ (receiveSubscriber seqCap now srcIp destIp informUser1 s evs1).2.2 = NO_ERR
    ∧ (receiveSubscriber seqCap now srcIp destIp informUser1 s evs1).1.newFrame
        = el.frame
    ∧ (receiveSubscriber seqCap now srcIp destIp informUser1 s evs1).1.sndQueue
        = s.sndQueue := by
  obtain ⟨hu1, hu2, hu3, hu4, hu5, hu6, hu7, hu8⟩ :=
    rcvElemUpd_proj seqCap srcIp destIp s.newFrame el
  have hfind : trdp_queueFindSubAddr s.rcvQueue s.newFrame.frameHead.comId srcIp destIp
      = some el := by
    rw [hq]
    exact findSubAddr_split pre post el _ srcIp destIp hpre hel
  unfold receiveSubscriber
  simp only [hfind]
  rw [if_pos hgate]
  rw [if_neg (by rw [hacc]; decide)]
  rw [if_neg (by rw [hacc]; decide)]
  refine ⟨?_, rfl, ?_, rfl⟩
  · show replaceFirstSub s.rcvQueue s.newFrame.frameHead.comId srcIp destIp _
      = pre ++ _ :: post
    rw [hq]
    exact replaceFirstSub_split pre post el _ _ srcIp destIp hpre hel
  · exact hu4

theorem timeoutOne_stable (now : Nat) (e : PD_ELE_T) :
    timeoutOne now (timeoutOne now e).1 = ((timeoutOne now e).1, [], 0) := by
  unfold timeoutOne
  by_cases h : e.interval ≠ 0 ∧ e.timeToGo ≠ 0 ∧ e.timeToGo ≤ now
      ∧ e.privFlags.timedOut = false ∧ e.addr.comId ≠ TRDP_STATISTICS_PULL_COMID
  · rw [if_pos h]
    rw [if_neg (by simp)]
  · rw [if_neg h, if_neg h]

theorem timeoutsGo_stable (now : Nat) :
    ∀ q : List PD_ELE_T,
      timeoutsGo now (timeoutsGo now q).1 = ((timeoutsGo now q).1, [], 0) := by
  intro q
  induction q with
  | nil => rfl
  | cons e rest ih =>
    simp only [timeoutsGo]
    rw [timeoutOne_stable now e, ih]
    rfl

/-- **C4** — a late, armed, cyclic subscriber that is not yet flagged
(and is not the statistics-pull subscription) gets exactly one timeout
notification: `numTimeout` is incremented, `lastErr` is set, the
callback (when registered) is invoked with `TimeoutErr`, and `TIMED_OUT`
is set; an already-flagged element and the statistics-pull subscription
are never notified; repeating the scan produces no further notification
and no further count; and an accepting receive clears `TIMED_OUT`
again. -/
theorem c4_timeout_single_notification :
    (∀ (now : Nat) (e : PD_ELE_T),
      e.interval ≠ 0 → e.timeToGo ≠ 0 → e.timeToGo ≤ now →
      e.privFlags.timedOut = false → e.addr.comId ≠ TRDP_STATISTICS_PULL_COMID →
      timeoutOne now e
        = ({ e with lastErr := TIMEOUT_ERR, privFlags.timedOut := true },
           (if e.hasCb then [PD_EVENT_T.cbPd (pdTimeoutInfo e)] else []), 1)
      ∧ (pdTimeoutInfo e).resultCode = TIMEOUT_ERR)
    ∧ (∀ (now : Nat) (e : PD_ELE_T), e.privFlags.timedOut = true →
        timeoutOne now e = (e, [], 0))
    ∧ (∀ (now : Nat) (e : PD_ELE_T), e.addr.comId = TRDP_STATISTICS_PULL_COMID →
        timeoutOne now e = (e, [], 0))
    ∧ (∀ (now : Nat) (s : TRDP_SESSION_T),
        (trdp_pdHandleTimeOuts now (trdp_pdHandleTimeOuts now s).1).2 = []
        ∧ (trdp_pdHandleTimeOuts now (trdp_pdHandleTimeOuts now s).1).1.stats.numTimeout
            = (trdp_pdHandleTimeOuts now s).1.stats.numTimeout)
    ∧ (∀ (seqCap now srcIp destIp : Nat) (informUser1 : Bool)
        (s : TRDP_SESSION_T) (evs1 : List PD_EVENT_T)
        (pre post : List PD_ELE_T) (el : PD_ELE_T),
        s.rcvQueue = pre ++ el :: post →
        (∀ x ∈ pre, subMatch x s.newFrame.frameHead.comId srcIp destIp = false) →
        subMatch el s.newFrame.frameHead.comId srcIp destIp = true →
        ((s.newFrame.frameHead.etbTopoCnt = 0 ∧ s.newFrame.frameHead.opTrnTopoCnt = 0)
          ∨ trdp_validTopoCounters s.newFrame.frameHead.etbTopoCnt
              s.newFrame.frameHead.opTrnTopoCnt
              el.addr.etbTopoCnt el.addr.opTrnTopoCnt = true) →
        (trdp_checkSequenceCounter seqCap
            (rcvSeqElem el s.newFrame.frameHead srcIp destIp)
            s.newFrame.frameHead.sequenceCounter srcIp
            s.newFrame.frameHead.msgType).1 = 0 →
        (receiveSubscriber seqCap now srcIp destIp informUser1 s evs1).1.rcvQueue
            = pre ++ rcvElemFinal seqCap now srcIp destIp s.newFrame el :: post
        ∧ (rcvElemFinal seqCap now srcIp destIp s.newFrame el).privFlags.timedOut
            = false) := by
  refine ⟨?_, ?_, ?_, ?_, ?_⟩
  · intro now e h1 h2 h3 h4 h5
    constructor
    · unfold timeoutOne
      rw [if_pos ⟨h1, h2, h3, h4, h5⟩]
    · rfl
  · intro now e h
    unfold timeoutOne
    rw [if_neg (by simp [h])]
  · intro now e h
    unfold timeoutOne
    rw [if_neg (by simp [h])]
  · intro now s
    unfold trdp_pdHandleTimeOuts
    simp [timeoutsGo_stable]
  · intro seqCap now srcIp destIp informUser1 s evs1 pre post el hq hpre hel hgate hacc
    exact ⟨(receiveSubscriber_accept seqCap now srcIp destIp informUser1 s evs1
        pre post el hq hpre hel hgate hacc).1,
      (rcvElemFinal_proj seqCap now srcIp destIp s.newFrame el).2.2.2.1⟩

/-- Witness for `c4_timeout_single_notification`. -/
theorem c4_timeout_single_notification_witness :
    (eleC4.interval ≠ 0 ∧ eleC4.timeToGo ≠ 0 ∧ eleC4.timeToGo ≤ 600000
      ∧ eleC4.privFlags.timedOut = false
      ∧ eleC4.addr.comId ≠ TRDP_STATISTICS_PULL_COMID)
    ∧ timeoutOne 600000 eleC4
        = ({ eleC4 with lastErr := TIMEOUT_ERR, privFlags.timedOut := true },
           (if eleC4.hasCb then [PD_EVENT_T.cbPd (pdTimeoutInfo eleC4)] else []), 1) :=
  ⟨by decide,
    (c4_timeout_single_notification.1 600000 eleC4 (by decide) (by decide)
      (by decide) (by decide) (by decide)).1⟩

/-- For a frame that passes `Check` and the session topology gate and is
not a PULL request, `trdp_pdReceive` is exactly the subscriber
processing on the session with the frame read into the scratch buffer. -/
theorem receive_noPr (crc32 : PD_HEADER_T → Nat) (udpOk : Int → Nat → Bool)
    (prepStats : TRDP_SESSION_T → PD_ELE_T → PD_ELE_T) (seqCap now : Nat)
    (s : TRDP_SESSION_T) (inPkt : PD_PACKET_T) (recSize srcIp destIp : Nat)
    (hchk : trdp_pdCheck crc32 inPkt.frameHead recSize = NO_ERR)
    (htopo : trdp_validTopoCounters s.etbTopoCnt s.opTrnTopoCnt
        inPkt.frameHead.etbTopoCnt inPkt.frameHead.opTrnTopoCnt = true)
    (hmsg : inPkt.frameHead.msgType ≠ TRDP_MSG_PR) :
    trdp_pdReceive crc32 udpOk prepStats seqCap now s inPkt recSize srcIp destIp
      = receiveSubscriber seqCap now srcIp destIp false
          { s with
              newFrame := inPkt,
              stats.numRcv := s.stats.numRcv + 1 } [] := by
  unfold trdp_pdReceive
  simp only [hchk]
  rw [if_neg (by simp [htopo])]
  have hpr : receivePullReq crc32 udpOk prepStats now srcIp
      { s with
          newFrame := inPkt,
          stats.numRcv := s.stats.numRcv + 1 }
      = ({ s with
            newFrame := inPkt,
            stats.numRcv := s.stats.numRcv + 1 }, [], false) := by
    unfold receivePullReq
    rw [if_neg (by simpa using hmsg)]
  simp only [hpr]

/-- The subscriber topology gate failing: `numTopoErr` is counted,
`lastErr` recorded, `TopoErr` returned, the user informed, and the new
frame is NOT swapped in. -/
theorem receiveSubscriber_topoFail
    (seqCap now srcIp destIp : Nat) (informUser1 : Bool)
    (s : TRDP_SESSION_T) (evs1 : List PD_EVENT_T)
    (pre post : List PD_ELE_T) (el : PD_ELE_T)
    (hq : s.rcvQueue = pre ++ el :: post)
    (hpre : ∀ x ∈ pre, subMatch x s.newFrame.frameHead.comId srcIp destIp = false)
    (hel : subMatch el s.newFrame.frameHead.comId srcIp destIp = true)
    (hgate : ¬((s.newFrame.frameHead.etbTopoCnt = 0 ∧ s.newFrame.frameHead.opTrnTopoCnt = 0)
        ∨ trdp_validTopoCounters s.newFrame.frameHead.etbTopoCnt
            s.newFrame.frameHead.opTrnTopoCnt
            el.addr.etbTopoCnt el.addr.opTrnTopoCnt = true)) :
    (receiveSubscriber seqCap now srcIp destIp informUser1 s evs1).2.2 = TOPO_ERR
    ∧ (receiveSubscriber seqCap now srcIp destIp informUser1 s evs1).1.stats.numTopoErr
        = s.stats.numTopoErr + 1
    ∧ (receiveSubscriber seqCap now srcIp destIp informUser1 s evs1).1.rcvQueue
        = pre ++ { el with lastErr := TOPO_ERR } :: post
    ∧ (receiveSubscriber seqCap now srcIp destIp informUser1 s evs1).1.newFrame
        = s.newFrame
    ∧ (receiveSubscriber seqCap now srcIp destIp informUser1 s evs1).2.1
        = evs1 ++ (if el.pktFlags.callbackFlag = true ∧ el.hasCb = true
            then [PD_EVENT_T.cbPd
              (pdRcvInfo { el with lastErr := TOPO_ERR } destIp TOPO_ERR)] else []) := by
  have hfind : trdp_queueFindSubAddr s.rcvQueue s.newFrame.frameHead.comId srcIp destIp
      = some el := by
    rw [hq]
    exact findSubAddr_split pre post el _ srcIp destIp hpre hel
  unfold receiveSubscriber
  simp only [hfind]
  rw [if_neg hgate]
  refine ⟨rfl, rfl, ?_, rfl, rfl⟩
  show replaceFirstSub s.rcvQueue s.newFrame.frameHead.comId srcIp destIp _
      = pre ++ _ :: post
  rw [hq]
  exact replaceFirstSub_split pre post el _ _ srcIp destIp hpre hel

/-- The subscriber topology gate passing: the receiver never reports
`TopoErr` nor touches `numTopoErr` for this frame. -/
theorem receiveSubscriber_gatePass
    (seqCap now srcIp destIp : Nat) (informUser1 : Bool)
    (s : TRDP_SESSION_T) (evs1 : List PD_EVENT_T)
    (pre post : List PD_ELE_T) (el : PD_ELE_T)
    (hq : s.rcvQueue = pre ++ el :: post)
    (hpre : ∀ x ∈ pre, subMatch x s.newFrame.frameHead.comId srcIp destIp = false)
    (hel : subMatch el s.newFrame.frameHead.comId srcIp destIp = true)
    (hgate : (s.newFrame.frameHead.etbTopoCnt = 0 ∧ s.newFrame.frameHead.opTrnTopoCnt = 0)
        ∨ trdp_validTopoCounters s.newFrame.frameHead.etbTopoCnt
            s.newFrame.frameHead.opTrnTopoCnt
            el.addr.etbTopoCnt el.addr.opTrnTopoCnt = true) :
    (receiveSubscriber seqCap now srcIp destIp informUser1 s evs1).2.2 ≠ TOPO_ERR
    ∧ (receiveSubscriber seqCap now srcIp destIp informUser1 s evs1).1.stats.numTopoErr
        = s.stats.numTopoErr := by
  have hfind : trdp_queueFindSubAddr s.rcvQueue s.newFrame.frameHead.comId srcIp destIp
      = some el := by
    rw [hq]
    exact findSubAddr_split pre post el _ srcIp destIp hpre hel
  unfold receiveSubscriber
  simp only [hfind]
  rw [if_pos hgate]
  by_cases hm : (trdp_checkSequenceCounter seqCap
      (rcvSeqElem el s.newFrame.frameHead srcIp destIp)
      s.newFrame.frameHead.sequenceCounter srcIp
      s.newFrame.frameHead.msgType).1 = -1
  · rw [if_pos hm]
    exact ⟨by simp, rfl⟩
  · rw [if_neg hm]
    by_cases hdup : (trdp_checkSequenceCounter seqCap
        (rcvSeqElem el s.newFrame.frameHead srcIp destIp)
        s.newFrame.frameHead.sequenceCounter srcIp
        s.newFrame.frameHead.msgType).1 = 1
    · rw [if_pos hdup]
      exact ⟨by simp, rfl⟩
    · rw [if_neg hdup]
      exact ⟨by simp, rfl⟩

/-- **C1 counterexample** — a restarted sender (seq 42 accepted, then
seq 0): the frame is accepted as from a new sender, but `numMissed` IS
bumped by the wrap formula: it jumps from 0 to `UINT32_MAX − 42 =
4294967253` — the "bump into the billions" the claim rules out. -/
theorem c1_restart_bump_counterexample :
    subC1.curSeqCnt = 42
    ∧ pktC1.frameHead.sequenceCounter = 0
    ∧ subC1.numMissed = 0
    ∧ (trdp_pdReceive (fun _ => 0) (fun _ _ => true) (fun _ e => e) 10 1000
        sesC1 pktC1 40 167772161 167772162).2.2 = NO_ERR
    ∧ ((trdp_pdReceive (fun _ => 0) (fun _ _ => true) (fun _ e => e) 10 1000
        sesC1 pktC1 40 167772161 167772162).1.rcvQueue.map PD_ELE_T.curSeqCnt) = [0]
    ∧ ((trdp_pdReceive (fun _ => 0) (fun _ _ => true) (fun _ e => e) 10 1000
        sesC1 pktC1 40 167772161 167772162).1.rcvQueue.map PD_ELE_T.numMissed)
        = [4294967253]
    ∧ (4294967253 : Nat) = UINT32_MAX - 42 := by
  decide

/-- **C1 (amended)** — a frame with sequence counter 0 from a tracked
source resets that source's entry and is accepted as from a restarted
sender, but `numMissed` IS increased by the wrap formula (the wrap branch
fires whenever `curSeqCnt > newSeq`, restarts included); in general
`numMissed += newSeq − curSeqCnt − 1` when `newSeq > 0` and
`newSeq > curSeqCnt + 1`, and `numMissed += UINT32_MAX − curSeqCnt +
newSeq` whenever `newSeq < curSeqCnt` (all in 32-bit arithmetic). -/
theorem c1_seq_gap_accounting :
    (∀ (crc32 : PD_HEADER_T → Nat) (udpOk : Int → Nat → Bool)
       (prepStats : TRDP_SESSION_T → PD_ELE_T → PD_ELE_T)
       (seqCap now : Nat) (s : TRDP_SESSION_T) (inPkt : PD_PACKET_T)
       (recSize srcIp destIp : Nat) (pre post : List PD_ELE_T) (el : PD_ELE_T),
      trdp_pdCheck crc32 inPkt.frameHead recSize = NO_ERR →
      trdp_validTopoCounters s.etbTopoCnt s.opTrnTopoCnt
        inPkt.frameHead.etbTopoCnt inPkt.frameHead.opTrnTopoCnt = true →
      inPkt.frameHead.msgType ≠ TRDP_MSG_PR →
      s.rcvQueue = pre ++ el :: post →
      (∀ x ∈ pre, subMatch x inPkt.frameHead.comId srcIp destIp = false) →
      subMatch el inPkt.frameHead.comId srcIp destIp = true →
      ((inPkt.frameHead.etbTopoCnt = 0 ∧ inPkt.frameHead.opTrnTopoCnt = 0)
        ∨ trdp_validTopoCounters inPkt.frameHead.etbTopoCnt
            inPkt.frameHead.opTrnTopoCnt
            el.addr.etbTopoCnt el.addr.opTrnTopoCnt = true) →
      (trdp_checkSequenceCounter seqCap
          (rcvSeqElem el inPkt.frameHead srcIp destIp)
          inPkt.frameHead.sequenceCounter srcIp inPkt.frameHead.msgType).1 = 0 →
      (trdp_pdReceive crc32 udpOk prepStats seqCap now s inPkt recSize srcIp destIp).2.2
          = NO_ERR
      ∧ (trdp_pdReceive crc32 udpOk prepStats seqCap now s inPkt recSize srcIp destIp).1.rcvQueue
          = pre ++ rcvElemFinal seqCap now srcIp destIp inPkt el :: post
      ∧ (rcvElemFinal seqCap now srcIp destIp inPkt el).curSeqCnt
          = inPkt.frameHead.sequenceCounter
      ∧ (rcvElemFinal seqCap now srcIp destIp inPkt el).numMissed
          = gapNumMissed el.numMissed el.curSeqCnt inPkt.frameHead.sequenceCounter
      ∧ (rcvElemFinal seqCap now srcIp destIp inPkt el).frame = inPkt)
    ∧ (∀ m cur new : Nat, new ≠ 0 → new < U32 → cur + 1 < U32 → new > cur + 1 →
        gapNumMissed m cur new = (m + (new - cur - 1)) % U32)
    ∧ (∀ m cur new : Nat, cur < UINT32_MAX → new < cur →
        gapNumMissed m cur new = (m + (UINT32_MAX - cur + new)) % U32)
    ∧ gapNumMissed 0 42 0 = UINT32_MAX - 42 := by
  refine ⟨?_, ?_, ?_, by decide⟩
  · intro crc32 udpOk prepStats seqCap now s inPkt recSize srcIp destIp pre post el
      hchk htopo hmsg hq hpre hel hgate hacc
    rw [receive_noPr crc32 udpOk prepStats seqCap now s inPkt recSize srcIp destIp
      hchk htopo hmsg]
    have haccept := receiveSubscriber_accept seqCap now srcIp destIp false
      { s with
          newFrame := inPkt,
          stats.numRcv := s.stats.numRcv + 1 } []
      pre post el hq hpre hel hgate hacc
    obtain ⟨hf1, hf2, hf3, hf4, hf5, hf6, hf7, hf8⟩ :=
      rcvElemFinal_proj seqCap now srcIp destIp inPkt el
    exact ⟨haccept.2.1, haccept.1, hf2, hf1, hf3⟩
  · intro m cur new h0 hnew hcur hgt
    simp only [gapNumMissed, U32] at *
    rw [if_pos (by omega)]
    omega
  · intro m cur new hcur hlt
    simp only [gapNumMissed, U32, UINT32_MAX] at *
    rw [if_neg (by omega), if_pos (by omega)]

/-- Witness for `c1_seq_gap_accounting` at the restart scenario. -/
theorem c1_seq_gap_accounting_witness :
    trdp_pdCheck (fun _ => 0) pktC1.frameHead 40 = NO_ERR
    ∧ subMatch subC1 pktC1.frameHead.comId 167772161 167772162 = true
    ∧ (trdp_pdReceive (fun _ => 0) (fun _ _ => true) (fun _ e => e) 10 1000
        sesC1 pktC1 40 167772161 167772162).2.2 = NO_ERR :=
  ⟨by decide, by decide,
    ((c1_seq_gap_accounting.1 (fun _ => 0) (fun _ _ => true) (fun _ e => e) 10 1000
      sesC1 pktC1 40 167772161 167772162 [] [] subC1
      (by decide) (by decide) (by decide) (by decide) (by simp) (by decide)
      (Or.inl (by decide)) (by decide)).1)⟩

/-- **C2 counterexample** — the claim says a subscriber whose stored
topography pair is not (0,0) only accepts frames whose counters match the
stored ones; but a frame carrying the wildcard pair (0,0) ≠ (5,3) is
accepted by the code (no `TopoErr`, frame swapped in). -/
theorem c2_subscriber_gate_counterexample :
    subC2.addr.etbTopoCnt = 5 ∧ subC2.addr.opTrnTopoCnt = 3
    ∧ pktC2.frameHead.etbTopoCnt = 0 ∧ pktC2.frameHead.opTrnTopoCnt = 0
    ∧ ¬(subC2.addr.etbTopoCnt = 0 ∧ subC2.addr.opTrnTopoCnt = 0)
    ∧ ¬(pktC2.frameHead.etbTopoCnt = subC2.addr.etbTopoCnt
        ∧ pktC2.frameHead.opTrnTopoCnt = subC2.addr.opTrnTopoCnt)
    ∧ (trdp_pdReceive (fun _ => 0) (fun _ _ => true) (fun _ e => e) 10 1000
        sesC2 pktC2 40 167772161 167772162).2.2 = NO_ERR
    ∧ (trdp_pdReceive (fun _ => 0) (fun _ _ => true) (fun _ e => e) 10 1000
        sesC2 pktC2 40 167772161 167772162).1.stats.numTopoErr = 0
    ∧ ((trdp_pdReceive (fun _ => 0) (fun _ _ => true) (fun _ e => e) 10 1000
        sesC2 pktC2 40 167772161 167772162).1.rcvQueue.map PD_ELE_T.frame)
        = [pktC2] := by
  decide

/-- **C2 (amended)** — the subscriber topology gate accepts iff the
frame's pair is (0,0) or each counter matches the stored one with 0 as a
wildcard on either side; on gate failure Receive increments
`numTopoErr`, sets the subscriber's `lastErr` to `TopoErr`, returns
`TopoErr`, informs the user (callback with resultCode `TopoErr` when the
callback flag and function are present), and does not swap in the new
frame; a subscriber whose stored pair is (0,0) accepts any frame's
counters. -/
theorem c2_subscriber_topo_gate :
    ∀ (crc32 : PD_HEADER_T → Nat) (udpOk : Int → Nat → Bool)
      (prepStats : TRDP_SESSION_T → PD_ELE_T → PD_ELE_T)
      (seqCap now : Nat) (s : TRDP_SESSION_T) (inPkt : PD_PACKET_T)
      (recSize srcIp destIp : Nat) (pre post : List PD_ELE_T) (el : PD_ELE_T),
      trdp_pdCheck crc32 inPkt.frameHead recSize = NO_ERR →
      trdp_validTopoCounters s.etbTopoCnt s.opTrnTopoCnt
        inPkt.frameHead.etbTopoCnt inPkt.frameHead.opTrnTopoCnt = true →
      inPkt.frameHead.msgType ≠ TRDP_MSG_PR →
      s.rcvQueue = pre ++ el :: post →
      (∀ x ∈ pre, subMatch x inPkt.frameHead.comId srcIp destIp = false) →
      subMatch el inPkt.frameHead.comId srcIp destIp = true →
      (¬((inPkt.frameHead.etbTopoCnt = 0 ∧ inPkt.frameHead.opTrnTopoCnt = 0)
          ∨ trdp_validTopoCounters inPkt.frameHead.etbTopoCnt
              inPkt.frameHead.opTrnTopoCnt
              el.addr.etbTopoCnt el.addr.opTrnTopoCnt = true) →
        (trdp_pdReceive crc32 udpOk prepStats seqCap now s inPkt recSize srcIp destIp).2.2
            = TOPO_ERR
        ∧ (trdp_pdReceive crc32 udpOk prepStats seqCap now s inPkt recSize srcIp destIp).1.stats.numTopoErr
            = s.stats.numTopoErr + 1
        ∧ (trdp_pdReceive crc32 udpOk prepStats seqCap now s inPkt recSize srcIp destIp).1.rcvQueue
            = pre ++ { el with lastErr := TOPO_ERR } :: post
        ∧ (trdp_pdReceive crc32 udpOk prepStats seqCap now s inPkt recSize srcIp destIp).1.newFrame
            = inPkt
        ∧ (trdp_pdReceive crc32 udpOk prepStats seqCap now s inPkt recSize srcIp destIp).2.1
            = (if el.pktFlags.callbackFlag = true ∧ el.hasCb = true
               then [PD_EVENT_T.cbPd
                 (pdRcvInfo { el with lastErr := TOPO_ERR } destIp TOPO_ERR)] else [])
        ∧ (pdRcvInfo { el with lastErr := TOPO_ERR } destIp TOPO_ERR).resultCode
            = TOPO_ERR)
      ∧ (el.addr.etbTopoCnt = 0 → el.addr.opTrnTopoCnt = 0 →
          (trdp_pdReceive crc32 udpOk prepStats seqCap now s inPkt recSize srcIp destIp).2.2
              ≠ TOPO_ERR
          ∧ (trdp_pdReceive crc32 udpOk prepStats seqCap now s inPkt recSize srcIp destIp).1.stats.numTopoErr
              = s.stats.numTopoErr) := by
  intro crc32 udpOk prepStats seqCap now s inPkt recSize srcIp destIp pre post el
    hchk htopo hmsg hq hpre hel
  rw [receive_noPr crc32 udpOk prepStats seqCap now s inPkt recSize srcIp destIp
    hchk htopo hmsg]
  constructor
  · intro hgate
    have h := receiveSubscriber_topoFail seqCap now srcIp destIp false
      { s with
          newFrame := inPkt,
          stats.numRcv := s.stats.numRcv + 1 } []
      pre post el hq hpre hel hgate
    exact ⟨h.1, h.2.1, h.2.2.1, h.2.2.2.1, by simpa using h.2.2.2.2, rfl⟩
  · intro hz1 hz2
    have hgate : (inPkt.frameHead.etbTopoCnt = 0 ∧ inPkt.frameHead.opTrnTopoCnt = 0)
        ∨ trdp_validTopoCounters inPkt.frameHead.etbTopoCnt
            inPkt.frameHead.opTrnTopoCnt
            el.addr.etbTopoCnt el.addr.opTrnTopoCnt = true :=
      Or.inr (by simp [trdp_validTopoCounters, hz1, hz2])
    have h := receiveSubscriber_gatePass seqCap now srcIp destIp false
      { s with
          newFrame := inPkt,
          stats.numRcv := s.stats.numRcv + 1 } []
      pre post el hq hpre hel hgate
    exact ⟨h.1, h.2⟩

/-- Witness for `c2_subscriber_topo_gate`. -/
theorem c2_subscriber_topo_gate_witness :
    ¬((pktC2w.frameHead.etbTopoCnt = 0 ∧ pktC2w.frameHead.opTrnTopoCnt = 0)
      ∨ trdp_validTopoCounters pktC2w.frameHead.etbTopoCnt
          pktC2w.frameHead.opTrnTopoCnt
          subC2.addr.etbTopoCnt subC2.addr.opTrnTopoCnt = true)
    ∧ (trdp_pdReceive (fun _ => 0) (fun _ _ => true) (fun _ e => e) 10 1000
        sesC2 pktC2w 40 167772161 167772162).2.2 = TOPO_ERR :=
  ⟨by decide,
    ((c2_subscriber_topo_gate (fun _ => 0) (fun _ _ => true) (fun _ e => e) 10 1000
      sesC2 pktC2w 40 167772161 167772162 [] [] subC2
      (by decide) (by decide) (by decide) (by decide) (by simp) (by decide)).1
      (by decide)).1⟩

theorem sendQueuedGo_append (crc32 : PD_HEADER_T → Nat) (udpOk : Int → Nat → Bool)
    (now sessionEtb sessionOp : Nat) (xs ys : List PD_ELE_T) :
    ∀ errIn : TRDP_ERR_T,
      sendQueuedGo crc32 udpOk now sessionEtb sessionOp (xs ++ ys) errIn
        = ((sendQueuedGo crc32 udpOk now sessionEtb sessionOp xs errIn).1
             ++ (sendQueuedGo crc32 udpOk now sessionEtb sessionOp ys
                  (sendQueuedGo crc32 udpOk now sessionEtb sessionOp xs errIn).2.2.2).1,
           (sendQueuedGo crc32 udpOk now sessionEtb sessionOp xs errIn).2.1
             ++ (sendQueuedGo crc32 udpOk now sessionEtb sessionOp ys
                  (sendQueuedGo crc32 udpOk now sessionEtb sessionOp xs errIn).2.2.2).2.1,
           (sendQueuedGo crc32 udpOk now sessionEtb sessionOp xs errIn).2.2.1
             + (sendQueuedGo crc32 udpOk now sessionEtb sessionOp ys
                  (sendQueuedGo crc32 udpOk now sessionEtb sessionOp xs errIn).2.2.2).2.2.1,
           (sendQueuedGo crc32 udpOk now sessionEtb sessionOp ys
              (sendQueuedGo crc32 udpOk now sessionEtb sessionOp xs errIn).2.2.2).2.2.2) := by
  induction xs with
  | nil =>
    intro errIn
    simp [sendQueuedGo]
  | cons e rest ih =>
    intro errIn
    simp only [List.cons_append, sendQueuedGo, List.append_eq]
    rw [ih]
    cases hk : (sendOne crc32 udpOk now sessionEtb sessionOp errIn e).kept with
    | none => simp [List.append_assoc, Nat.add_assoc]
    | some ek => simp [List.append_assoc, Nat.add_assoc]

/-- The loop body on a publisher just triggered as a pull reply
(`pullIpAddress` set to a nonzero target, `REQ_2B_SENT` set, `PD` frame,
valid data, valid socket, not redundant, matching topography, transport
succeeding): the frame is emitted as PP to the target, and the element is
kept with its msgType restored to PD, timer untouched, flag cleared, and
the one-shot destination consumed. -/
theorem sendOne_pullReply (crc32 : PD_HEADER_T → Nat) (udpOk : Int → Nat → Bool)
    (now sessionEtb sessionOp : Nat) (errIn : TRDP_ERR_T)
    (pub pubX : PD_ELE_T) (target : Nat)
    (hX : pubX = { pub with pullIpAddress := target, privFlags.req2bSent := true })
    (hmsg : pub.frame.frameHead.msgType = TRDP_MSG_PD)
    (hinv : pub.privFlags.invalidData = false)
    (hred : pub.privFlags.redundant = false)
    (hsock : ¬ pub.socketIdx = -1)
    (htopo : trdp_validTopoCounters sessionEtb sessionOp
        pub.frame.frameHead.etbTopoCnt pub.frame.frameHead.opTrnTopoCnt = true)
    (htarget : target ≠ 0)
    (hudp : udpOk pub.socketIdx target = true) :
    (sendOne crc32 udpOk now sessionEtb sessionOp errIn pubX).kept.map
        (fun pubF => (pubF.frame.frameHead.msgType, pubF.timeToGo,
          pubF.privFlags.req2bSent, pubF.pullIpAddress, pubF.curSeqCnt4Pull))
      = some (TRDP_MSG_PD, pub.timeToGo, false, 0, (pub.curSeqCnt4Pull + 1) % U32)
    ∧ PD_EVENT_T.emit pub.addr.comId target TRDP_MSG_PP
        ((pub.curSeqCnt4Pull + 1) % U32) pub.socketIdx
        ∈ (sendOne crc32 udpOk now sessionEtb sessionOp errIn pubX).events := by
  subst hX
  simp only [sendOne, sendAttempt, pullSwap, trdp_pdUpdate, sendBody, trdp_pdSend]
  simp [hmsg, hinv, hred, hsock, htopo, htarget, hudp,
    TRDP_MSG_PD, TRDP_MSG_PP, TRDP_MSG_PR]

/-- The subscriber processing never touches the send queue, and only
appends to the events produced by the PULL branch. -/
theorem receiveSubscriber_frame_inv (seqCap now srcIp destIp : Nat)
    (informUser1 : Bool) (s : TRDP_SESSION_T) (evs1 : List PD_EVENT_T) :
    (receiveSubscriber seqCap now srcIp destIp informUser1 s evs1).1.sndQueue
        = s.sndQueue
    ∧ ∃ tl, (receiveSubscriber seqCap now srcIp destIp informUser1 s evs1).2.1
        = evs1 ++ tl := by
  unfold receiveSubscriber
  cases hfind : trdp_queueFindSubAddr s.rcvQueue s.newFrame.frameHead.comId srcIp destIp with
  | none => exact ⟨rfl, [], by simp⟩
  | some el =>
    dsimp only
    by_cases hg : (s.newFrame.frameHead.etbTopoCnt = 0
          ∧ s.newFrame.frameHead.opTrnTopoCnt = 0)
        ∨ trdp_validTopoCounters s.newFrame.frameHead.etbTopoCnt
            s.newFrame.frameHead.opTrnTopoCnt
            el.addr.etbTopoCnt el.addr.opTrnTopoCnt = true
    · rw [if_pos hg]
      by_cases h1 : (trdp_checkSequenceCounter seqCap
          (rcvSeqElem el s.newFrame.frameHead srcIp destIp)
          s.newFrame.frameHead.sequenceCounter srcIp
          s.newFrame.frameHead.msgType).1 = -1
      · rw [if_pos h1]
        exact ⟨rfl, [], by simp⟩
      · rw [if_neg h1]
        by_cases h2 : (trdp_checkSequenceCounter seqCap
            (rcvSeqElem el s.newFrame.frameHead srcIp destIp)
            s.newFrame.frameHead.sequenceCounter srcIp
            s.newFrame.frameHead.msgType).1 = 1
        · rw [if_pos h2]
          exact ⟨rfl, [], by simp⟩
        · rw [if_neg h2]
          exact ⟨rfl, _, rfl⟩
    · rw [if_neg hg]
      exact ⟨rfl, _, rfl⟩

/-- For a non-statistics PULL request whose (replyComId or comId) finds a
publisher, `trdp_pdReceive` triggers that publisher and runs
`trdp_pdSendQueued` before processing the subscription queue. -/
theorem receive_pr (crc32 : PD_HEADER_T → Nat) (udpOk : Int → Nat → Bool)
    (prepStats : TRDP_SESSION_T → PD_ELE_T → PD_ELE_T) (seqCap now : Nat)
    (s : TRDP_SESSION_T) (inPkt : PD_PACKET_T) (recSize srcIp destIp : Nat)
    (pub0 : PD_ELE_T)
    (hchk : trdp_pdCheck crc32 inPkt.frameHead recSize = NO_ERR)
    (htopo : trdp_validTopoCounters s.etbTopoCnt s.opTrnTopoCnt
        inPkt.frameHead.etbTopoCnt inPkt.frameHead.opTrnTopoCnt = true)
    (hmsg : inPkt.frameHead.msgType = TRDP_MSG_PR)
    (hnstats : inPkt.frameHead.comId ≠ TRDP_STATISTICS_PULL_COMID)
    (hfound : trdp_queueFindComId s.sndQueue
        (if inPkt.frameHead.replyComId = 0 then inPkt.frameHead.comId
         else inPkt.frameHead.replyComId) = some pub0) :
    trdp_pdReceive crc32 udpOk prepStats seqCap now s inPkt recSize srcIp destIp
      = receiveSubscriber seqCap now srcIp destIp true
          (trdp_pdSendQueued crc32 udpOk now (pulledSession srcIp s inPkt)).1
          (trdp_pdSendQueued crc32 udpOk now (pulledSession srcIp s inPkt)).2.1 := by
  simp only [pulledSession]
  unfold trdp_pdReceive
  simp only [hchk]
  rw [if_neg (by simp [htopo])]
  have hpr : receivePullReq crc32 udpOk prepStats now srcIp
      { s with
          newFrame := inPkt,
          stats.numRcv := s.stats.numRcv + 1 }
      = ((trdp_pdSendQueued crc32 udpOk now
            { s with
                newFrame := inPkt,
                stats.numRcv := s.stats.numRcv + 1,
                sndQueue := queueUpdateComId s.sndQueue
                  (if inPkt.frameHead.replyComId = 0 then inPkt.frameHead.comId
                   else inPkt.frameHead.replyComId)
                  (fun e =>
                    { e with
                        pullIpAddress := if inPkt.frameHead.replyIpAddress ≠ 0
                          then inPkt.frameHead.replyIpAddress else srcIp,
                        privFlags.req2bSent := true }) }).1,
         (trdp_pdSendQueued crc32 udpOk now
            { s with
                newFrame := inPkt,
                stats.numRcv := s.stats.numRcv + 1,
                sndQueue := queueUpdateComId s.sndQueue
                  (if inPkt.frameHead.replyComId = 0 then inPkt.frameHead.comId
                   else inPkt.frameHead.replyComId)
                  (fun e =>
                    { e with
                        pullIpAddress := if inPkt.frameHead.replyIpAddress ≠ 0
                          then inPkt.frameHead.replyIpAddress else srcIp,
                        privFlags.req2bSent := true }) }).2.1,
         true) := by
    unfold receivePullReq
    rw [if_pos (by simpa using hmsg)]
    rw [if_neg (by simpa using hnstats)]
    simp only [show trdp_queueFindComId s.sndQueue
        (if inPkt.frameHead.replyComId = 0 then inPkt.frameHead.comId
         else inPkt.frameHead.replyComId) = some pub0 from hfound]
  simp only [hpr]

/-- **C3** — a checked, topo-valid, non-statistics PULL request whose
(`replyComId`, or `comId` when `replyComId` is 0) matches a publisher in
the send queue: within the same `Receive` call the reply leaves as
`msgType` PP addressed to the one-shot target (the frame's
`replyIpAddress` if nonzero, else the source IP), and afterwards the
publisher sits in the send queue with its header `msgType` restored to
PD, its `timeToGo` not advanced, `REQ_2B_SENT` cleared and the one-shot
destination consumed. -/
theorem c3_pull_request_reply (crc32 : PD_HEADER_T → Nat)
    (udpOk : Int → Nat → Bool) (prepStats : TRDP_SESSION_T → PD_ELE_T → PD_ELE_T)
    (seqCap now : Nat) (s : TRDP_SESSION_T) (inPkt : PD_PACKET_T)
    (recSize srcIp destIp : Nat) (pre post : List PD_ELE_T) (pub : PD_ELE_T)
    (rc target : Nat)
    (hrc : rc = (if inPkt.frameHead.replyComId = 0 then inPkt.frameHead.comId
        else inPkt.frameHead.replyComId))
    (htgt : target = (if inPkt.frameHead.replyIpAddress ≠ 0
        then inPkt.frameHead.replyIpAddress else srcIp))
    (hchk : trdp_pdCheck crc32 inPkt.frameHead recSize = NO_ERR)
    (htopoS : trdp_validTopoCounters s.etbTopoCnt s.opTrnTopoCnt
        inPkt.frameHead.etbTopoCnt inPkt.frameHead.opTrnTopoCnt = true)
    (hmsg : inPkt.frameHead.msgType = TRDP_MSG_PR)
    (hnstats : inPkt.frameHead.comId ≠ TRDP_STATISTICS_PULL_COMID)
    (hq : s.sndQueue = pre ++ pub :: post)
    (hpre : ∀ x ∈ pre, x.addr.comId ≠ rc)
    (hel : pub.addr.comId = rc)
    (hmsgPD : pub.frame.frameHead.msgType = TRDP_MSG_PD)
    (hinv : pub.privFlags.invalidData = false)
    (hred : pub.privFlags.redundant = false)
    (hsock : ¬ pub.socketIdx = -1)
    (htopoP : trdp_validTopoCounters s.etbTopoCnt s.opTrnTopoCnt
        pub.frame.frameHead.etbTopoCnt pub.frame.frameHead.opTrnTopoCnt = true)
    (htarget : target ≠ 0)
    (hudp : udpOk pub.socketIdx target = true) :
    PD_EVENT_T.emit pub.addr.comId target TRDP_MSG_PP
        ((pub.curSeqCnt4Pull + 1) % U32) pub.socketIdx
      ∈ (trdp_pdReceive crc32 udpOk prepStats seqCap now s inPkt
          recSize srcIp destIp).2.1
    ∧ ∃ q1 q2 pubF,
        (trdp_pdReceive crc32 udpOk prepStats seqCap now s inPkt
            recSize srcIp destIp).1.sndQueue = q1 ++ pubF :: q2
        ∧ pubF.frame.frameHead.msgType = TRDP_MSG_PD
        ∧ pubF.timeToGo = pub.timeToGo
        ∧ pubF.privFlags.req2bSent = false
        ∧ pubF.pullIpAddress = 0
        ∧ pubF.curSeqCnt4Pull = (pub.curSeqCnt4Pull + 1) % U32 := by
  subst hrc
  subst htgt
  have hfound : trdp_queueFindComId s.sndQueue
      (if inPkt.frameHead.replyComId = 0 then inPkt.frameHead.comId
       else inPkt.frameHead.replyComId) = some pub := by
    rw [hq]
    exact findComId_split pre post pub _ hpre hel
  rw [receive_pr crc32 udpOk prepStats seqCap now s inPkt recSize srcIp destIp
    pub hchk htopoS hmsg hnstats hfound]
  obtain ⟨hsnd, tl, hev⟩ := receiveSubscriber_frame_inv seqCap now srcIp destIp true
    (trdp_pdSendQueued crc32 udpOk now (pulledSession srcIp s inPkt)).1
    (trdp_pdSendQueued crc32 udpOk now (pulledSession srcIp s inPkt)).2.1
  have hq3 : (pulledSession srcIp s inPkt).sndQueue
      = pre ++ { pub with
          pullIpAddress := if inPkt.frameHead.replyIpAddress ≠ 0
            then inPkt.frameHead.replyIpAddress else srcIp,
          privFlags.req2bSent := true } :: post := by
    simp only [pulledSession]
    rw [hq]
    exact queueUpdateComId_split pre post pub _ _ hpre hel
  have hS1 : (trdp_pdSendQueued crc32 udpOk now (pulledSession srcIp s inPkt)).1.sndQueue
      = (sendQueuedGo crc32 udpOk now s.etbTopoCnt s.opTrnTopoCnt
          (pre ++ { pub with
              pullIpAddress := if inPkt.frameHead.replyIpAddress ≠ 0
                then inPkt.frameHead.replyIpAddress else srcIp,
              privFlags.req2bSent := true } :: post) NO_ERR).1 := by
    rw [← hq3]
    rfl
  have hE1 : (trdp_pdSendQueued crc32 udpOk now (pulledSession srcIp s inPkt)).2.1
      = (sendQueuedGo crc32 udpOk now s.etbTopoCnt s.opTrnTopoCnt
          (pre ++ { pub with
              pullIpAddress := if inPkt.frameHead.replyIpAddress ≠ 0
                then inPkt.frameHead.replyIpAddress else srcIp,
              privFlags.req2bSent := true } :: post) NO_ERR).2.1 := by
    rw [← hq3]
    rfl
  obtain ⟨hmap, hmem⟩ := sendOne_pullReply crc32 udpOk now s.etbTopoCnt s.opTrnTopoCnt
    ((sendQueuedGo crc32 udpOk now s.etbTopoCnt s.opTrnTopoCnt pre NO_ERR).2.2.2)
    pub ({ pub with
        pullIpAddress := if inPkt.frameHead.replyIpAddress ≠ 0
          then inPkt.frameHead.replyIpAddress else srcIp,
        privFlags.req2bSent := true })
    (if inPkt.frameHead.replyIpAddress ≠ 0
      then inPkt.frameHead.replyIpAddress else srcIp)
    rfl hmsgPD hinv hred hsock htopoP htarget hudp
  obtain ⟨pubF, hkept, hproj⟩ := Option.map_eq_some'.mp hmap
  simp only [Prod.mk.injEq] at hproj
  obtain ⟨hp1, hp2, hp3, hp4, hp5⟩ := hproj
  have hB1 : (sendQueuedGo crc32 udpOk now s.etbTopoCnt s.opTrnTopoCnt
      ({ pub with
          pullIpAddress := if inPkt.frameHead.replyIpAddress ≠ 0
            then inPkt.frameHead.replyIpAddress else srcIp,
          privFlags.req2bSent := true } :: post)
      ((sendQueuedGo crc32 udpOk now s.etbTopoCnt s.opTrnTopoCnt pre NO_ERR).2.2.2)).1
      = pubF :: (sendQueuedGo crc32 udpOk now s.etbTopoCnt s.opTrnTopoCnt post
          (sendOne crc32 udpOk now s.etbTopoCnt s.opTrnTopoCnt
            ((sendQueuedGo crc32 udpOk now s.etbTopoCnt s.opTrnTopoCnt pre NO_ERR).2.2.2)
            { pub with
                pullIpAddress := if inPkt.frameHead.replyIpAddress ≠ 0
                  then inPkt.frameHead.replyIpAddress else srcIp,
                privFlags.req2bSent := true }).errOut).1 := by
    simp only [sendQueuedGo, hkept]
  have hBev : PD_EVENT_T.emit pub.addr.comId
      (if inPkt.frameHead.replyIpAddress ≠ 0
        then inPkt.frameHead.replyIpAddress else srcIp) TRDP_MSG_PP
      ((pub.curSeqCnt4Pull + 1) % U32) pub.socketIdx
      ∈ (sendQueuedGo crc32 udpOk now s.etbTopoCnt s.opTrnTopoCnt
          ({ pub with
              pullIpAddress := if inPkt.frameHead.replyIpAddress ≠ 0
                then inPkt.frameHead.replyIpAddress else srcIp,
              privFlags.req2bSent := true } :: post)
          ((sendQueuedGo crc32 udpOk now s.etbTopoCnt s.opTrnTopoCnt pre NO_ERR).2.2.2)).2.1 := by
    simp only [sendQueuedGo]
    exact List.mem_append_left _ hmem
  refine ⟨?_, ?_⟩
  · rw [hev, hE1,
      sendQueuedGo_append crc32 udpOk now s.etbTopoCnt s.opTrnTopoCnt pre
        ({ pub with
            pullIpAddress := if inPkt.frameHead.replyIpAddress ≠ 0
              then inPkt.frameHead.replyIpAddress else srcIp,
            privFlags.req2bSent := true } :: post) NO_ERR]
    exact List.mem_append_left _ (List.mem_append_right _ hBev)
  · refine ⟨(sendQueuedGo crc32 udpOk now s.etbTopoCnt s.opTrnTopoCnt pre NO_ERR).1,
      (sendQueuedGo crc32 udpOk now s.etbTopoCnt s.opTrnTopoCnt post
        (sendOne crc32 udpOk now s.etbTopoCnt s.opTrnTopoCnt
          ((sendQueuedGo crc32 udpOk now s.etbTopoCnt s.opTrnTopoCnt pre NO_ERR).2.2.2)
          { pub with
              pullIpAddress := if inPkt.frameHead.replyIpAddress ≠ 0
                then inPkt.frameHead.replyIpAddress else srcIp,
              privFlags.req2bSent := true }).errOut).1,
      pubF, ?_, hp1, hp2, hp3, hp4, hp5⟩
    rw [hsnd, hS1,
      sendQueuedGo_append crc32 udpOk now s.etbTopoCnt s.opTrnTopoCnt pre
        ({ pub with
            pullIpAddress := if inPkt.frameHead.replyIpAddress ≠ 0
              then inPkt.frameHead.replyIpAddress else srcIp,
            privFlags.req2bSent := true } :: post) NO_ERR]
    dsimp only
    rw [hB1]

/-- Witness for C3 at the concrete pull scenario. -/
theorem c3_pull_request_reply_witness :
    PD_EVENT_T.emit eleC3.addr.comId 7 TRDP_MSG_PP
        ((eleC3.curSeqCnt4Pull + 1) % U32) eleC3.socketIdx
      ∈ (trdp_pdReceive (fun _ => 0) (fun _ _ => true) (fun _ e => e) 10 0
          sesC3 pktC3 40 7 9).2.1
    ∧ ∃ q1 q2 pubF,
        (trdp_pdReceive (fun _ => 0) (fun _ _ => true) (fun _ e => e) 10 0
            sesC3 pktC3 40 7 9).1.sndQueue = q1 ++ pubF :: q2
        ∧ pubF.frame.frameHead.msgType = TRDP_MSG_PD
        ∧ pubF.timeToGo = eleC3.timeToGo
        ∧ pubF.privFlags.req2bSent = false
        ∧ pubF.pullIpAddress = 0
        ∧ pubF.curSeqCnt4Pull = (eleC3.curSeqCnt4Pull + 1) % U32 :=
  c3_pull_request_reply (fun _ => 0) (fun _ _ => true) (fun _ e => e) 10 0
    sesC3 pktC3 40 7 9 [] [] eleC3 1000 7
    (by decide) (by decide) (by decide) (by decide) rfl (by decide) rfl
    (by simp) (by decide) rfl rfl rfl (by decide) (by decide) (by decide) rfl

end Trdp
